import Mathlib

/-!
# Replay overlay and sponsorship checks of the transaction engine

A shallow embedding of `transactions/simulation/SimulationTransactionFrame.cpp`
(the replay overlay of the transaction orchestrator) together with a model of
the orchestrator's `checkValid` / `apply` pipeline and of the sponsorship
subsystem, which are exercised by `transactions/test/SponsorFutureReservesTests.cpp`.

Conventions.
* `int64_t` values are integers; the only arithmetic that can leave the int64
  range (`feePool += fee`) is reduced with `wrapInt64`.
* `uint32_t` values (ledger version, counter) are natural numbers.
* A ledger transaction (`AbstractLedgerTxn`) is a header plus a list of account
  entries; a loaded entry is a reference to the first entry with that key.
-/

set_option autoImplicit false

namespace stellar

/-! ## Machine integers -/

def INT64_MAX : Int := 9223372036854775807

def INT64_MIN : Int := -9223372036854775808

/-- Two's-complement reduction of an integer to the range of `int64_t`. -/
def wrapInt64 (x : Int) : Int :=
  (x + 9223372036854775808) % 18446744073709551616 - 9223372036854775808

/-! ## Data model -/

abbrev AccountID := Nat

/-- Modelled from the spec: the top-level result codes of a transaction (the
wire declaration is not part of the sources at hand). The codes named by the
overlay and by the tests are `txSUCCESS`, `txFAILED`, `txTOO_EARLY`,
`txTOO_LATE`, `txBAD_SEQ` and `txBAD_SPONSORSHIP`; the rest are the other
precondition rejections of section 7 of the spec. -/
inductive TransactionResultCode
  | txFEE_BUMP_INNER_SUCCESS
  | txSUCCESS
  | txFAILED
  | txTOO_EARLY
  | txTOO_LATE
  | txMISSING_OPERATION
  | txBAD_SEQ
  | txBAD_AUTH
  | txINSUFFICIENT_BALANCE
  | txNO_ACCOUNT
  | txINSUFFICIENT_FEE
  | txBAD_AUTH_EXTRA
  | txINTERNAL_ERROR
  | txNOT_SUPPORTED
  | txFEE_BUMP_INNER_FAILED
  | txBAD_SPONSORSHIP
  deriving DecidableEq, Repr

/-- Modelled from the spec: the closed set of operation kinds (section 6 of the
spec); the kinds the overlay and the tests name are `ACCOUNT_MERGE`,
`MANAGE_BUY_OFFER`, `MANAGE_SELL_OFFER`, `CREATE_PASSIVE_SELL_OFFER`,
`SPONSOR_FUTURE_RESERVES` and `CONFIRM_AND_CLEAR_SPONSOR`. -/
inductive OperationType
  | CREATE_ACCOUNT
  | PAYMENT
  | PATH_PAYMENT_STRICT_RECEIVE
  | MANAGE_SELL_OFFER
  | CREATE_PASSIVE_SELL_OFFER
  | SET_OPTIONS
  | CHANGE_TRUST
  | ALLOW_TRUST
  | ACCOUNT_MERGE
  | INFLATION
  | MANAGE_DATA
  | BUMP_SEQUENCE
  | MANAGE_BUY_OFFER
  | PATH_PAYMENT_STRICT_SEND
  | SPONSOR_FUTURE_RESERVES
  | CONFIRM_AND_CLEAR_SPONSOR
  deriving DecidableEq, Repr

/-- Modelled from the spec: a per-operation result, a tagged value. `opINNER`
carries the arm `tr()` of the operation kind together with that arm's own
result code (0 is the kind's SUCCESS code, negative values its failures); the
other constructors are the operation-level rejections. -/
inductive OperationResult
  | opINNER (type : OperationType) (code : Int)
  | opBAD_AUTH
  | opNO_ACCOUNT
  | opNOT_SUPPORTED
  | opTOO_MANY_SUBENTRIES
  | opEXCEEDED_WORK_LIMIT
  deriving DecidableEq, Repr

/-- The value of a default-constructed `OperationResult`: code `opINNER`, first
arm, zeroed payload. -/
def OperationResult.default : OperationResult :=
  .opINNER .CREATE_ACCOUNT 0

/-- The operation kind an archived per-operation result belongs to, when it has
an inner arm at all. -/
def OperationResult.kind : OperationResult → Option OperationType
  | .opINNER t _ => some t
  | _ => none

/-- Modelled from the spec: the body of an operation, a tagged variant over the
operation kinds. Only the payload the sponsorship subsystem reads (the account
to be sponsored) is kept. -/
inductive OperationBody
  | createAccount
  | payment
  | pathPaymentStrictReceive
  | manageSellOffer
  | createPassiveSellOffer
  | setOptions
  | changeTrust
  | allowTrust
  | accountMerge
  | inflation
  | manageData
  | bumpSequence
  | manageBuyOffer
  | pathPaymentStrictSend
  | sponsorFutureReserves (sponsoredID : AccountID)
  | confirmAndClearSponsor
  deriving DecidableEq, Repr

/-- The discriminant `body.type()`. -/
def OperationBody.type : OperationBody → OperationType
  | .createAccount => .CREATE_ACCOUNT
  | .payment => .PAYMENT
  | .pathPaymentStrictReceive => .PATH_PAYMENT_STRICT_RECEIVE
  | .manageSellOffer => .MANAGE_SELL_OFFER
  | .createPassiveSellOffer => .CREATE_PASSIVE_SELL_OFFER
  | .setOptions => .SET_OPTIONS
  | .changeTrust => .CHANGE_TRUST
  | .allowTrust => .ALLOW_TRUST
  | .accountMerge => .ACCOUNT_MERGE
  | .inflation => .INFLATION
  | .manageData => .MANAGE_DATA
  | .bumpSequence => .BUMP_SEQUENCE
  | .manageBuyOffer => .MANAGE_BUY_OFFER
  | .pathPaymentStrictSend => .PATH_PAYMENT_STRICT_SEND
  | .sponsorFutureReserves _ => .SPONSOR_FUTURE_RESERVES
  | .confirmAndClearSponsor => .CONFIRM_AND_CLEAR_SPONSOR

/-- An operation: an optional source-account override and a body. -/
structure Operation where
  sourceAccount : Option AccountID
  body : OperationBody
  deriving DecidableEq, Repr

/-- The transaction inside an envelope (signatures and time bounds are not read
by the code modelled here). -/
structure Transaction where
  sourceAccount : AccountID
  fee : Nat
  seqNum : Int
  operations : List Operation
  deriving DecidableEq, Repr

structure TransactionEnvelope where
  tx : Transaction
  deriving DecidableEq, Repr

/-- The union `TransactionResult::result`: the top-level code and, for
`txSUCCESS` and `txFAILED`, the per-operation results. For the other codes the
union has no `results` arm and the list is not meaningful. -/
structure TransactionResultBody where
  code : TransactionResultCode
  results : List OperationResult
  deriving DecidableEq, Repr

structure TransactionResult where
  feeCharged : Int
  result : TransactionResultBody
  deriving DecidableEq, Repr

structure AccountEntry where
  accountID : AccountID
  balance : Int
  seqNum : Int
  deriving DecidableEq, Repr

structure LedgerHeader where
  ledgerVersion : Nat
  feePool : Int
  deriving DecidableEq, Repr

/-- The state seen through `AbstractLedgerTxn`: the header and the account
entries. -/
structure LedgerTxn where
  header : LedgerHeader
  accounts : List AccountEntry
  deriving DecidableEq, Repr

/-- The entry `loadAccount` hands out: the first entry with the given key. -/
def loadAccount (id : AccountID) : List AccountEntry → Option AccountEntry
  | [] => none
  | a :: rest => if a.accountID = id then some a else loadAccount id rest

/-- Writing through the reference handed out by `loadAccount`: the first entry
with the given key is replaced. -/
def storeAccount (id : AccountID) (e : AccountEntry) : List AccountEntry → List AccountEntry
  | [] => []
  | a :: rest => if a.accountID = id then e :: rest else a :: storeAccount id e rest

/-! ## The replay overlay: `SimulationTransactionFrame` -/

/-- The members of `SimulationTransactionFrame` the modelled methods touch:
the envelope, the live result, the cached account of the base class, the
archived result and the counter. -/
structure SimulationTransactionFrame where
  mEnvelope : TransactionEnvelope
  mResult : TransactionResult
  mCachedAccount : Option AccountEntry
  mSimulationResult : TransactionResult
  mCount : Nat
  deriving DecidableEq, Repr

/-- The executors `makeOperation` can return. The four replay executors keep
the operation, the archived per-operation result and (for the offer kinds) the
counter; `makeHelper` is the base class's default path
`OperationFrame::makeHelper(op, res, *this)`. The reference `res` to the live
result slot is not recorded. -/
inductive OperationFrame
  | SimulationMergeOpFrame (op : Operation) (simulationResult : OperationResult)
  | SimulationManageBuyOfferOpFrame (op : Operation) (simulationResult : OperationResult)
      (count : Nat)
  | SimulationManageSellOfferOpFrame (op : Operation) (simulationResult : OperationResult)
      (count : Nat)
  | SimulationCreatePassiveSellOfferOpFrame (op : Operation)
      (simulationResult : OperationResult) (count : Nat)
  | makeHelper (op : Operation)
  deriving DecidableEq, Repr

/-- The ways `makeOperation` can end without an executor: the `assert` on the
index fails, or the unchecked read `results()[index]` is past the end of the
archived list (no defined result). -/
inductive MakeOperationFailure
  | assertionFailed
  | readPastEnd
  deriving DecidableEq, Repr

namespace SimulationTransactionFrame

/-- The archived per-operation result `makeOperation` hands to the executor. -/
def resultFromArchive (f : SimulationTransactionFrame) (index : Nat) :
    Except MakeOperationFailure OperationResult :=
  if f.mSimulationResult.result.code = .txSUCCESS ∨
      f.mSimulationResult.result.code = .txFAILED then
    match f.mSimulationResult.result.results[index]? with
    | some r => .ok r
    | none => .error .readPastEnd
  else
    .ok OperationResult.default

/-- `SimulationTransactionFrame::makeOperation(op, res, index)`. The source
reaches the envelope's operations as `mEnvelope.v0().tx.operations` in the
`assert` and as `mEnvelope.tx.operations` in the `switch`; both are the
operation list of the one envelope. -/
def makeOperation (f : SimulationTransactionFrame) (op : Operation) (index : Nat) :
    Except MakeOperationFailure OperationFrame :=
  if index < f.mEnvelope.tx.operations.length then
    match resultFromArchive f index with
    | .error e => .error e
    | .ok fromArchive =>
      match f.mEnvelope.tx.operations[index]? with
      | none => .error .assertionFailed
      | some envOp =>
        match envOp.body.type with
        | .ACCOUNT_MERGE => .ok (.SimulationMergeOpFrame op fromArchive)
        | .MANAGE_BUY_OFFER => .ok (.SimulationManageBuyOfferOpFrame op fromArchive f.mCount)
        | .MANAGE_SELL_OFFER => .ok (.SimulationManageSellOfferOpFrame op fromArchive f.mCount)
        | .CREATE_PASSIVE_SELL_OFFER =>
          .ok (.SimulationCreatePassiveSellOfferOpFrame op fromArchive f.mCount)
        | _ => .ok (.makeHelper op)
  else
    .error .assertionFailed

/-- `SimulationTransactionFrame::isTooEarly(header)`. -/
def isTooEarly (f : SimulationTransactionFrame) (_header : LedgerHeader) : Bool :=
  decide (f.mSimulationResult.result.code = .txTOO_EARLY)

/-- `SimulationTransactionFrame::isTooLate(header)`. -/
def isTooLate (f : SimulationTransactionFrame) (_header : LedgerHeader) : Bool :=
  decide (f.mSimulationResult.result.code = .txTOO_LATE)

/-- `SimulationTransactionFrame::isBadSeq(seqNum)`. -/
def isBadSeq (f : SimulationTransactionFrame) (_seqNum : Int) : Bool :=
  decide (f.mSimulationResult.result.code = .txBAD_SEQ)

/-- `SimulationTransactionFrame::getFee(header, baseFee)`. -/
def getFee (f : SimulationTransactionFrame) (_header : LedgerHeader) (_baseFee : Int) : Int :=
  f.mSimulationResult.feeCharged

/-- Modelled from the spec: the base class's `resetResults(header, baseFee)`,
which is not part of the sources at hand. It starts the live result afresh
(top-level code success, one empty slot per operation of the envelope) and
stores the fee obtained from the virtual `getFee`, so that fee processing is
"driven by the archived fee value instead of a freshly computed one". -/
def resetResults (f : SimulationTransactionFrame) (header : LedgerHeader) (baseFee : Int) :
    SimulationTransactionFrame :=
  { f with
    mResult :=
      { feeCharged := getFee f header baseFee
        result :=
          { code := .txSUCCESS
            results := f.mEnvelope.tx.operations.map (fun _ => OperationResult.default) } } }

/-- Modelled from the spec: the base class's `loadSourceAccount(ltx, header)`,
which is not part of the sources at hand: the account entry of the envelope's
source account, if the ledger has one. -/
def loadSourceAccount (f : SimulationTransactionFrame) (ltx : LedgerTxn) : Option AccountEntry :=
  loadAccount f.mEnvelope.tx.sourceAccount ltx.accounts

end SimulationTransactionFrame

/-- Modelled from the spec: the helper `stellar::addBalance(balance, delta,
maxBalance)` of the utilities, which is not part of the sources at hand. It
adds `delta` to the balance ("debits the source account's balance" for a
negative delta) and refuses, leaving the balance as it is, when the sum would
be negative or exceed `maxBalance`. The pair is the returned flag and the
balance afterwards. `processFeeSeqNum` calls it with two arguments and ignores
the flag; the bound is then the largest int64. -/
def addBalance (balance delta maxBalance : Int) : Bool × Int :=
  if delta = 0 then (true, balance)
  else if delta < -balance then (false, balance)
  else if maxBalance - balance < delta then (false, balance)
  else (true, balance + delta)

namespace SimulationTransactionFrame

/-- `SimulationTransactionFrame::processFeeSeqNum(ltx, baseFee)`: the frame and
the ledger state afterwards. -/
def processFeeSeqNum (f : SimulationTransactionFrame) (ltx : LedgerTxn) (baseFee : Int) :
    SimulationTransactionFrame × LedgerTxn :=
  let f1 := { f with mCachedAccount := none }
  let header := ltx.header
  let f2 := resetResults f1 header baseFee
  match loadSourceAccount f2 ltx with
  | none => (f2, ltx)
  | some acc =>
    let fee := f2.mResult.feeCharged
    -- `if (fee > 0)`: the three values written inside the branch
    let fee1 := if fee > 0 then min acc.balance fee else fee
    let balance1 :=
      if fee > 0 then (addBalance acc.balance (wrapInt64 (-fee1)) INT64_MAX).2 else acc.balance
    let feePool1 := if fee > 0 then wrapInt64 (header.feePool + fee1) else header.feePool
    -- `if (header.current().ledgerVersion <= 9)`
    let seqNum1 := if header.ledgerVersion ≤ 9 then f2.mEnvelope.tx.seqNum else acc.seqNum
    let acc1 : AccountEntry := { acc with balance := balance1, seqNum := seqNum1 }
    ({ f2 with mResult := { f2.mResult with feeCharged := fee1 } },
     { header := { header with feePool := feePool1 }
       accounts := storeAccount f2.mEnvelope.tx.sourceAccount acc1 ltx.accounts })

/-- `SimulationTransactionFrame::processSeqNum(ltx)`: the ledger state
afterwards, or `none` when the handle of a missing source account is
dereferenced. -/
def processSeqNum (f : SimulationTransactionFrame) (ltx : LedgerTxn) : Option LedgerTxn :=
  if ltx.header.ledgerVersion ≥ 10 then
    match loadSourceAccount f ltx with
    | none => none
    | some acc =>
      some { ltx with
        accounts :=
          storeAccount f.mEnvelope.tx.sourceAccount
            { acc with seqNum := f.mEnvelope.tx.seqNum } ltx.accounts }
  else
    some ltx

end SimulationTransactionFrame

/-! ## The orchestrator and the sponsorship subsystem

`TransactionFrame::checkValid`, `TransactionFrame::apply` and the executors of
the two sponsorship operations are exercised by
`transactions/test/SponsorFutureReservesTests.cpp` but are not part of the
sources at hand. They are modelled from sections 4.1 and 4.2 of the spec; where
the spec leaves a choice open the seven sections of the test fix it, and the
model is checked against each of them below. -/

/-- Modelled from the spec: the pending sponsorship relation of section 3
(`SponsorshipEdge`), kept as the list of its edges, each a pair
(sponsored, sponsor). -/
abbrev Sponsorships := List (AccountID × AccountID)

/-- The account has a sponsor pending (it is the sponsored end of an edge). -/
def isSponsored (P : Sponsorships) (a : AccountID) : Bool :=
  P.any (fun e => decide (e.1 = a))

/-- The account is sponsoring some account's future reserves (it is the
sponsor end of an edge). -/
def isSponsoring (P : Sponsorships) (a : AccountID) : Bool :=
  P.any (fun e => decide (e.2 = a))

/-- No account is at the same time sponsored and sponsoring: the relation has
no chain of two edges, hence no cycle and no self-sponsorship. -/
def NoChain (P : Sponsorships) : Prop :=
  ∀ a : AccountID, ¬ (isSponsored P a = true ∧ isSponsoring P a = true)

def SPONSOR_FUTURE_RESERVES_SUCCESS : OperationResult :=
  .opINNER .SPONSOR_FUTURE_RESERVES 0

def SPONSOR_FUTURE_RESERVES_MALFORMED : OperationResult :=
  .opINNER .SPONSOR_FUTURE_RESERVES (-1)

def SPONSOR_FUTURE_RESERVES_ALREADY_SPONSORED : OperationResult :=
  .opINNER .SPONSOR_FUTURE_RESERVES (-2)

def SPONSOR_FUTURE_RESERVES_RECURSIVE : OperationResult :=
  .opINNER .SPONSOR_FUTURE_RESERVES (-3)

def CONFIRM_AND_CLEAR_SPONSOR_SUCCESS : OperationResult :=
  .opINNER .CONFIRM_AND_CLEAR_SPONSOR 0

def CONFIRM_AND_CLEAR_SPONSOR_NOT_SPONSORED : OperationResult :=
  .opINNER .CONFIRM_AND_CLEAR_SPONSOR (-1)

/-- An operation succeeded: its result is the inner arm with the kind's
SUCCESS code. -/
def OperationResult.isSuccess : OperationResult → Bool
  | .opINNER _ c => decide (c = 0)
  | _ => false

/-- The account an operation acts for: its own source override, else the
transaction's source account. -/
def Operation.getSourceID (op : Operation) (txSource : AccountID) : AccountID :=
  op.sourceAccount.getD txSource

/-- Modelled from the spec: which operation kinds the active ledger version
knows (section 6: "closed set, versioned"). The two sponsorship kinds exist
from version 14 on (the test runs them `for_versions_from(14)` and expects
`opNOT_SUPPORTED` at version 13); no other gate is described. -/
def isVersionSupported (ledgerVersion : Nat) : OperationType → Bool
  | .SPONSOR_FUTURE_RESERVES => decide (14 ≤ ledgerVersion)
  | .CONFIRM_AND_CLEAR_SPONSOR => decide (14 ≤ ledgerVersion)
  | _ => true

/-- Modelled from the spec: the state view an operation executor works on: the
pending sponsorship relation and the rest of the ledger, of which nothing is
assumed. -/
structure StateView (σ : Type) where
  ledger : σ
  sponsorships : Sponsorships

namespace OperationExecutor

/-- Modelled from the spec: the validate step of an operation executor
(section 4.1, edge cases, and section 4.2): a kind the ledger version does not
know is rejected with the not-supported code, a sponsor-future-reserves whose
sponsored account is its own source is malformed. `none` means valid. -/
def validate (ledgerVersion : Nat) (txSource : AccountID) (op : Operation) :
    Option OperationResult :=
  if isVersionSupported ledgerVersion op.body.type then
    match op.body with
    | .sponsorFutureReserves sponsoredID =>
      if sponsoredID = op.getSourceID txSource then some SPONSOR_FUTURE_RESERVES_MALFORMED
      else none
    | _ => none
  else
    some .opNOT_SUPPORTED

/-- Modelled from the spec: the state machine of section 4.2 for
sponsor-future-reserves issued by `sponsor` for `sponsored`: NONE to PENDING
unless the sponsored account already has a sponsor (ALREADY_SPONSORED), or the
sponsor is itself under a pending sponsorship, or the sponsored account is
itself sponsoring (RECURSIVE in both cases, as the sections "sponsoring account
is sponsored" and "sponsored account is sponsoring" of the test require).
Neither the spec nor the test settles which rejection wins when the sponsored
account already has a sponsor and a RECURSIVE condition holds as well; the
tests below follow the order in which section 4.2 lists them. -/
def sponsorFutureReserves (sponsor sponsored : AccountID) (P : Sponsorships) :
    OperationResult × Sponsorships :=
  if isSponsored P sponsored then (SPONSOR_FUTURE_RESERVES_ALREADY_SPONSORED, P)
  else if isSponsored P sponsor then (SPONSOR_FUTURE_RESERVES_RECURSIVE, P)
  else if isSponsoring P sponsored then (SPONSOR_FUTURE_RESERVES_RECURSIVE, P)
  else (SPONSOR_FUTURE_RESERVES_SUCCESS, (sponsored, sponsor) :: P)

/-- Modelled from the spec: the state machine of section 4.2 for
confirm-and-clear-sponsor issued by the sponsored account: PENDING to NONE,
clearing the pending marker; it fails when the account has no sponsor
pending. -/
def confirmAndClearSponsor (sponsored : AccountID) (P : Sponsorships) :
    OperationResult × Sponsorships :=
  if isSponsored P sponsored then
    (CONFIRM_AND_CLEAR_SPONSOR_SUCCESS, P.filter (fun e => decide (e.1 ≠ sponsored)))
  else (CONFIRM_AND_CLEAR_SPONSOR_NOT_SPONSORED, P)

/-- Modelled from the spec: the validate-then-apply contract of an operation
executor (section 4.1). The executors of the kinds other than the two
sponsorship operations are the parameter `dflt`: they act on the rest of the
ledger and do not touch the sponsorship relation. -/
def validateAndApply {σ : Type} (ledgerVersion : Nat)
    (dflt : Operation → AccountID → σ → OperationResult × σ) (txSource : AccountID)
    (op : Operation) (view : StateView σ) : OperationResult × StateView σ :=
  match validate ledgerVersion txSource op with
  | some r => (r, view)
  | none =>
    match op.body with
    | .sponsorFutureReserves sponsoredID =>
      let r := sponsorFutureReserves (op.getSourceID txSource) sponsoredID view.sponsorships
      (r.1, { view with sponsorships := r.2 })
    | .confirmAndClearSponsor =>
      let r := confirmAndClearSponsor (op.getSourceID txSource) view.sponsorships
      (r.1, { view with sponsorships := r.2 })
    | _ =>
      let r := dflt op (op.getSourceID txSource) view.ledger
      (r.1, { view with ledger := r.2 })

end OperationExecutor

namespace TransactionFrame

/-- Modelled from the spec: the per-operation part of `checkValid`: the
operations are validated in envelope order and the first rejection stops the
pass. The flag tells whether all passed; the list holds the slots of the
operations looked at, the last one being the rejection if there is one. -/
def validateOperations (ledgerVersion : Nat) (txSource : AccountID) :
    List Operation → Bool × List OperationResult
  | [] => (true, [])
  | op :: rest =>
    match OperationExecutor.validate ledgerVersion txSource op with
    | some r => (false, [r])
    | none =>
      let t := validateOperations ledgerVersion txSource rest
      (t.1, .opINNER op.body.type 0 :: t.2)

/-- Modelled from the spec: `checkValid` of section 4.1. The precondition stage
(time bounds, sequence number, fee, signatures) is the parameter `precheck`:
`none` when it passes, else the rejection code it sets. After it the operations
are validated ("rejected with a not-supported code at validate time, counted as
an ordinary per-operation failure"); a rejected operation fails the transaction
and makes `checkValid` return false, as the sections "not supported" and
"malformed" of the test require (`REQUIRE(!tx->checkValid(ltx, 0, 0))`). -/
def checkValid (ledgerVersion : Nat) (precheck : Option TransactionResultCode)
    (envelope : TransactionEnvelope) : Bool × TransactionResultBody :=
  match precheck with
  | some c => (false, { code := c, results := [] })
  | none =>
    let t := validateOperations ledgerVersion envelope.tx.sourceAccount envelope.tx.operations
    if t.1 then (true, { code := .txSUCCESS, results := t.2 })
    else (false, { code := .txFAILED, results := t.2 })

/-- Modelled from the spec: the operation loop of `apply` (section 4.1): the
operations run in envelope order, each result is recorded at its index, the
effects of every attempted operation are merged, and the first failure stops
the loop. The flag tells whether every operation succeeded. -/
def applyOperations {σ : Type} (ledgerVersion : Nat)
    (dflt : Operation → AccountID → σ → OperationResult × σ) (txSource : AccountID) :
    List Operation → StateView σ → Bool × List OperationResult × StateView σ
  | [], view => (true, [], view)
  | op :: rest, view =>
    let r := OperationExecutor.validateAndApply ledgerVersion dflt txSource op view
    if r.1.isSuccess then
      let t := applyOperations ledgerVersion dflt txSource rest r.2
      (t.1, r.1 :: t.2.1, t.2.2)
    else (false, [r.1], r.2)

/-- Modelled from the spec: `apply` of section 4.1: the operation loop, then,
if no operation failed, the post-apply check that no sponsorship is left
pending; a failed check sets the dedicated code (whose union arm carries no
per-operation results). Returns true only if every operation succeeded and the
check passed. -/
def apply {σ : Type} (ledgerVersion : Nat)
    (dflt : Operation → AccountID → σ → OperationResult × σ)
    (envelope : TransactionEnvelope) (view : StateView σ) :
    Bool × TransactionResultBody × StateView σ :=
  let t := applyOperations ledgerVersion dflt envelope.tx.sourceAccount
    envelope.tx.operations view
  if t.1 then
    if t.2.2.sponsorships.isEmpty then (true, { code := .txSUCCESS, results := t.2.1 }, t.2.2)
    else (false, { code := .txBAD_SPONSORSHIP, results := [] }, t.2.2)
  else (false, { code := .txFAILED, results := t.2.1 }, t.2.2)

end TransactionFrame

/-! ## The transactions of the test -/

namespace SponsorFutureReservesTests

def root : AccountID := 0

def a1 : AccountID := 1

def a2 : AccountID := 2

/-- The helper `transactionFrameFromOps(networkID, source, ops, opKeys)` of the
test, as far as the envelope goes (fee 100 per operation; the signatures are
not modelled). -/
def envelopeFromOps (source : AccountID) (seqNum : Int) (ops : List Operation) :
    TransactionEnvelope :=
  { tx := { sourceAccount := source, fee := 100 * ops.length, seqNum := seqNum,
            operations := ops } }

/-- The test's `account.op(sponsorFutureReserves(sponsored))`. -/
def opSponsorFutureReserves (source sponsored : AccountID) : Operation :=
  { sourceAccount := some source, body := .sponsorFutureReserves sponsored }

/-- The test's `account.op(confirmAndClearSponsor())`. -/
def opConfirmAndClearSponsor (source : AccountID) : Operation :=
  { sourceAccount := some source, body := .confirmAndClearSponsor }

/-- A default executor for runs that contain sponsorship operations only. -/
def noDefault : Operation → AccountID → Unit → OperationResult × Unit :=
  fun op _ _ => (.opINNER op.body.type 0, ())

/-- The state view at the start of a transaction: nothing pending. -/
def emptyView : StateView Unit :=
  { ledger := (), sponsorships := [] }

end SponsorFutureReservesTests

/-! ## The dispatch rule in the words of the spec -/

/-- The executor the dispatch rule names for an operation kind, stated from the
words of the spec and not from the code: the replay executor for merge-account,
manage-buy-offer, manage-sell-offer and create-passive-sell-offer, carrying the
given archived per-operation result (and the counter for the offer kinds), and
the default executor for every other kind. `makeOperation` is compared with it
below. -/
def executorForKind (kind : OperationType) (op : Operation) (fromArchive : OperationResult)
    (count : Nat) : OperationFrame :=
  if kind = .ACCOUNT_MERGE then .SimulationMergeOpFrame op fromArchive
  else if kind = .MANAGE_BUY_OFFER then .SimulationManageBuyOfferOpFrame op fromArchive count
  else if kind = .MANAGE_SELL_OFFER then .SimulationManageSellOfferOpFrame op fromArchive count
  else if kind = .CREATE_PASSIVE_SELL_OFFER then
    .SimulationCreatePassiveSellOfferOpFrame op fromArchive count
  else .makeHelper op

/-! ## Concrete replay frames -/

namespace Examples

/-- An envelope of account 0 with sequence number 7 and the given operations. -/
def envelope (ops : List Operation) : TransactionEnvelope :=
  { tx := { sourceAccount := 0, fee := 100, seqNum := 7, operations := ops } }

/-- A replay frame as `makeTransactionFromWire` builds it: the envelope, the
archived result and the counter, with an untouched live result. -/
def frame (ops : List Operation) (archived : TransactionResult) :
    SimulationTransactionFrame :=
  { mEnvelope := envelope ops
    mResult := { feeCharged := 0, result := { code := .txSUCCESS, results := [] } }
    mCachedAccount := none
    mSimulationResult := archived
    mCount := 5 }

/-- An archived result with the given fee, top-level code and per-operation
results. -/
def archived (fee : Int) (code : TransactionResultCode) (results : List OperationResult) :
    TransactionResult :=
  { feeCharged := fee, result := { code := code, results := results } }

/-- A ledger at the given version and fee pool in which account 0 has the given
balance and sequence number 6, next to an unrelated account 1. -/
def ledger (version : Nat) (feePool balance : Int) : LedgerTxn :=
  { header := { ledgerVersion := version, feePool := feePool }
    accounts := [{ accountID := 1, balance := 50, seqNum := 3 },
                 { accountID := 0, balance := balance, seqNum := 6 }] }

def payment : Operation :=
  { sourceAccount := none, body := .payment }

def manageBuyOffer : Operation :=
  { sourceAccount := none, body := .manageBuyOffer }

def accountMerge : Operation :=
  { sourceAccount := none, body := .accountMerge }

end Examples

/-! ## Account entries: loading and storing -/

theorem loadAccount_accountID {id : AccountID} {l : List AccountEntry} {a : AccountEntry}
    (h : loadAccount id l = some a) : a.accountID = id := by
  induction l with
  | nil => simp [loadAccount] at h
  | cons x rest ih =>
    unfold loadAccount at h
    by_cases hx : x.accountID = id
    · rw [if_pos hx] at h
      cases h
      exact hx
    · rw [if_neg hx] at h
      exact ih h

theorem loadAccount_storeAccount {id : AccountID} {l : List AccountEntry} {a e : AccountEntry}
    (h : loadAccount id l = some a) (he : e.accountID = id) :
    loadAccount id (storeAccount id e l) = some e := by
  induction l with
  | nil => simp [loadAccount] at h
  | cons x rest ih =>
    unfold loadAccount at h
    unfold storeAccount
    by_cases hx : x.accountID = id
    · rw [if_pos hx]
      unfold loadAccount
      rw [if_pos he]
    · rw [if_neg hx] at h
      rw [if_neg hx]
      unfold loadAccount
      rw [if_neg hx]
      exact ih h

theorem storeAccount_self {id : AccountID} {l : List AccountEntry} {a : AccountEntry}
    (h : loadAccount id l = some a) : storeAccount id a l = l := by
  induction l with
  | nil => rfl
  | cons x rest ih =>
    unfold loadAccount at h
    unfold storeAccount
    by_cases hx : x.accountID = id
    · rw [if_pos hx] at h
      cases h
      rw [if_pos hx]
    · rw [if_neg hx] at h
      rw [if_neg hx, ih h]

theorem storeAccount_storeAccount {id : AccountID} {l : List AccountEntry} {e : AccountEntry}
    (he : e.accountID = id) :
    storeAccount id e (storeAccount id e l) = storeAccount id e l := by
  induction l with
  | nil => rfl
  | cons x rest ih =>
    by_cases hx : x.accountID = id
    · simp [storeAccount, hx, he]
    · simp [storeAccount, hx, ih]

/-! ## Machine integers -/

theorem wrapInt64_of_range {x : Int} (h1 : INT64_MIN ≤ x) (h2 : x ≤ INT64_MAX) :
    wrapInt64 x = x := by
  unfold wrapInt64
  unfold INT64_MIN at h1
  unfold INT64_MAX at h2
  rw [Int.emod_eq_of_lt (by omega) (by omega)]
  omega

/-! ## The replay overlay: queries -/

namespace SimulationTransactionFrame

/-- C3. Each of `isTooEarly`, `isTooLate` and `isBadSeq` answers true exactly
when the archived top-level code is `txTOO_EARLY`, `txTOO_LATE`, `txBAD_SEQ`
respectively; the answers are the same for every header and every sequence
number passed in, and no two of them are true together. -/
theorem archived_verdicts (f : SimulationTransactionFrame) (header header2 : LedgerHeader)
    (seqNum seqNum2 : Int) :
    (f.isTooEarly header = true ↔ f.mSimulationResult.result.code = .txTOO_EARLY) ∧
    (f.isTooLate header = true ↔ f.mSimulationResult.result.code = .txTOO_LATE) ∧
    (f.isBadSeq seqNum = true ↔ f.mSimulationResult.result.code = .txBAD_SEQ) ∧
    f.isTooEarly header = f.isTooEarly header2 ∧
    f.isTooLate header = f.isTooLate header2 ∧
    f.isBadSeq seqNum = f.isBadSeq seqNum2 ∧
    ¬ (f.isTooEarly header = true ∧ f.isTooLate header = true) ∧
    ¬ (f.isTooEarly header = true ∧ f.isBadSeq seqNum = true) ∧
    ¬ (f.isTooLate header = true ∧ f.isBadSeq seqNum = true) := by
  refine ⟨?_, ?_, ?_, rfl, rfl, rfl, ?_, ?_, ?_⟩
  · simp [isTooEarly]
  · simp [isTooLate]
  · simp [isBadSeq]
  · rintro ⟨h1, h2⟩
    simp only [isTooEarly, isTooLate, decide_eq_true_eq] at h1 h2
    rw [h1] at h2
    cases h2
  · rintro ⟨h1, h2⟩
    simp only [isTooEarly, isBadSeq, decide_eq_true_eq] at h1 h2
    rw [h1] at h2
    cases h2
  · rintro ⟨h1, h2⟩
    simp only [isTooLate, isBadSeq, decide_eq_true_eq] at h1 h2
    rw [h1] at h2
    cases h2

/-- C4. `getFee` returns the archived `feeCharged`; two frames with the same
archived result get the same answer whatever their envelopes (offered fee,
operations), the header and the base fee are. -/
theorem getFee_archived (f g : SimulationTransactionFrame) (header header2 : LedgerHeader)
    (baseFee baseFee2 : Int) :
    f.getFee header baseFee = f.mSimulationResult.feeCharged ∧
    (g.mSimulationResult = f.mSimulationResult →
      g.getFee header2 baseFee2 = f.getFee header baseFee) := by
  refine ⟨rfl, ?_⟩
  intro h
  simp [getFee, h]

/-! ## The replay overlay: fee and sequence number -/

/-- What `processFeeSeqNum` leaves behind when the source account exists. -/
theorem processFeeSeqNum_of_load (f : SimulationTransactionFrame) (ltx : LedgerTxn)
    (baseFee : Int) (acc : AccountEntry) (hacc : f.loadSourceAccount ltx = some acc) :
    (f.processFeeSeqNum ltx baseFee).1.mEnvelope = f.mEnvelope ∧
    (f.processFeeSeqNum ltx baseFee).1.mResult.feeCharged =
      (if f.mSimulationResult.feeCharged > 0
        then min acc.balance f.mSimulationResult.feeCharged
        else f.mSimulationResult.feeCharged) ∧
    (f.processFeeSeqNum ltx baseFee).2.header.ledgerVersion = ltx.header.ledgerVersion ∧
    (f.processFeeSeqNum ltx baseFee).2.header.feePool =
      (if f.mSimulationResult.feeCharged > 0
        then wrapInt64 (ltx.header.feePool + min acc.balance f.mSimulationResult.feeCharged)
        else ltx.header.feePool) ∧
    (f.processFeeSeqNum ltx baseFee).1.loadSourceAccount (f.processFeeSeqNum ltx baseFee).2 =
      some
        { acc with
          balance :=
            if f.mSimulationResult.feeCharged > 0
            then (addBalance acc.balance
              (wrapInt64 (-(min acc.balance f.mSimulationResult.feeCharged))) INT64_MAX).2
            else acc.balance
          seqNum :=
            if ltx.header.ledgerVersion ≤ 9 then f.mEnvelope.tx.seqNum else acc.seqNum } := by
  have hacc2 : loadAccount f.mEnvelope.tx.sourceAccount ltx.accounts = some acc := hacc
  have hid : acc.accountID = f.mEnvelope.tx.sourceAccount := loadAccount_accountID hacc2
  by_cases hf : f.mSimulationResult.feeCharged > 0
  · simp only [processFeeSeqNum, resetResults, loadSourceAccount, getFee, hacc2, hf, if_true]
    refine ⟨?_, ?_, ?_, ?_, ?_⟩
    all_goals first | trivial | rfl | exact loadAccount_storeAccount hacc2 hid
  · simp only [processFeeSeqNum, resetResults, loadSourceAccount, getFee, hacc2, hf, if_false]
    refine ⟨?_, ?_, ?_, ?_, ?_⟩
    all_goals first | trivial | rfl | exact loadAccount_storeAccount hacc2 hid

/-- The debit `addBalance(acc.balance, -fee)` with `fee = min(balance, f)`. -/
theorem addBalance_debit {b fee : Int} (hb0 : 0 ≤ b) (hb1 : b ≤ INT64_MAX) (hf : 0 < fee) :
    (addBalance b (wrapInt64 (-(min b fee))) INT64_MAX).2 = b - min b fee := by
  have hm0 : 0 ≤ min b fee := le_min hb0 (le_of_lt hf)
  have hm1 : min b fee ≤ b := min_le_left _ _
  have hw : wrapInt64 (-(min b fee)) = -(min b fee) := by
    apply wrapInt64_of_range
    · unfold INT64_MIN
      unfold INT64_MAX at hb1
      omega
    · unfold INT64_MAX
      omega
  rw [hw]
  unfold addBalance
  by_cases h0 : -(min b fee) = 0
  · rw [if_pos h0]
    show b = b - min b fee
    omega
  · rw [if_neg h0, if_neg (by omega), if_neg (by omega)]
    show b + -(min b fee) = b - min b fee
    omega

end SimulationTransactionFrame

namespace SimulationTransactionFrame

/-- C1 (amended). When the source account exists with an int64 balance
`b >= 0`, the fee pool is `p` and the archived `feeCharged` is `f`, and the sum
`p + min(b, f)` does not exceed `INT64_MAX`, `processFeeSeqNum` leaves the
balance at `b - min(b, f)` and the fee pool at `p + min(b, f)` when `f > 0` and
leaves both unchanged when `f <= 0`; balance plus fee pool is preserved and the
balance stays non-negative. -/
theorem processFeeSeqNum_fee_transfer (f : SimulationTransactionFrame) (ltx : LedgerTxn)
    (baseFee : Int) (acc : AccountEntry) (hacc : f.loadSourceAccount ltx = some acc)
    (hb0 : 0 ≤ acc.balance) (hb1 : acc.balance ≤ INT64_MAX)
    (hp : INT64_MIN ≤ ltx.header.feePool)
    (hsum : 0 < f.mSimulationResult.feeCharged →
      ltx.header.feePool + min acc.balance f.mSimulationResult.feeCharged ≤ INT64_MAX) :
    ∃ acc2 : AccountEntry,
      (f.processFeeSeqNum ltx baseFee).1.loadSourceAccount (f.processFeeSeqNum ltx baseFee).2 =
        some acc2 ∧
      (0 < f.mSimulationResult.feeCharged →
        acc2.balance = acc.balance - min acc.balance f.mSimulationResult.feeCharged ∧
        (f.processFeeSeqNum ltx baseFee).2.header.feePool =
          ltx.header.feePool + min acc.balance f.mSimulationResult.feeCharged) ∧
      (f.mSimulationResult.feeCharged ≤ 0 →
        acc2.balance = acc.balance ∧
        (f.processFeeSeqNum ltx baseFee).2.header.feePool = ltx.header.feePool) ∧
      acc2.balance + (f.processFeeSeqNum ltx baseFee).2.header.feePool =
        acc.balance + ltx.header.feePool ∧
      0 ≤ acc2.balance := by
  obtain ⟨-, -, -, hpool, hload⟩ := processFeeSeqNum_of_load f ltx baseFee acc hacc
  refine ⟨_, hload, ?_⟩
  rw [hpool]
  by_cases hf : f.mSimulationResult.feeCharged > 0
  · have hm0 : 0 ≤ min acc.balance f.mSimulationResult.feeCharged := le_min hb0 (le_of_lt hf)
    have hm1 : min acc.balance f.mSimulationResult.feeCharged ≤ acc.balance := min_le_left _ _
    have hw : wrapInt64 (ltx.header.feePool + min acc.balance f.mSimulationResult.feeCharged)
        = ltx.header.feePool + min acc.balance f.mSimulationResult.feeCharged :=
      wrapInt64_of_range (by omega) (hsum hf)
    simp only [if_pos hf, addBalance_debit hb0 hb1 hf, hw]
    refine ⟨?_, ?_, ?_, ?_⟩
    all_goals
      first
      | trivial
      | omega
      | exact fun _ => ⟨trivial, trivial⟩
  · simp only [if_neg hf]
    refine ⟨?_, ?_, ?_, ?_⟩
    all_goals
      first
      | trivial
      | omega
      | exact fun h => absurd h hf
      | exact fun _ => ⟨trivial, trivial⟩

/-- Witness for C1 (amended): balance 30, fee pool 1000, archived fee 100. -/
theorem processFeeSeqNum_fee_transfer_witness :
    ∃ acc2 : AccountEntry,
      ((Examples.frame [Examples.payment] (Examples.archived 100 .txSUCCESS
          [.opINNER .PAYMENT 0])).processFeeSeqNum (Examples.ledger 13 1000 30) 100).1.loadSourceAccount
        ((Examples.frame [Examples.payment] (Examples.archived 100 .txSUCCESS
          [.opINNER .PAYMENT 0])).processFeeSeqNum (Examples.ledger 13 1000 30) 100).2 = some acc2 ∧
      acc2.balance = 0 ∧
      ((Examples.frame [Examples.payment] (Examples.archived 100 .txSUCCESS
          [.opINNER .PAYMENT 0])).processFeeSeqNum (Examples.ledger 13 1000 30)
            100).2.header.feePool = 1030 := by
  obtain ⟨acc2, h1, h2, -, -, -⟩ :=
    processFeeSeqNum_fee_transfer
      (Examples.frame [Examples.payment] (Examples.archived 100 .txSUCCESS [.opINNER .PAYMENT 0]))
      (Examples.ledger 13 1000 30) 100 { accountID := 0, balance := 30, seqNum := 6 }
      (by decide) (by decide) (by decide) (by decide) (by intro _; decide)
  exact ⟨acc2, h1, (h2 (by decide)).1, (h2 (by decide)).2⟩

/-- C1, counterexample. With the fee pool at `INT64_MAX`, balance 1 and
archived fee 1 the addition `feePool += fee` leaves the int64 range: the fee
pool ends at `INT64_MIN`, not at `p + min(b, f)`, and balance plus fee pool is
not preserved. -/
theorem processFeeSeqNum_feePool_overflow :
    (Examples.frame [Examples.payment] (Examples.archived 1 .txSUCCESS
        [.opINNER .PAYMENT 0])).loadSourceAccount (Examples.ledger 13 INT64_MAX 1) =
      some { accountID := 0, balance := 1, seqNum := 6 } ∧
    ((Examples.frame [Examples.payment] (Examples.archived 1 .txSUCCESS
        [.opINNER .PAYMENT 0])).processFeeSeqNum (Examples.ledger 13 INT64_MAX 1)
          100).2.header.feePool = INT64_MIN ∧
    ((Examples.frame [Examples.payment] (Examples.archived 1 .txSUCCESS
        [.opINNER .PAYMENT 0])).processFeeSeqNum (Examples.ledger 13 INT64_MAX 1)
          100).2.header.feePool ≠ INT64_MAX + min 1 1 ∧
    ((Examples.frame [Examples.payment] (Examples.archived 1 .txSUCCESS
        [.opINNER .PAYMENT 0])).processFeeSeqNum (Examples.ledger 13 INT64_MAX 1)
          100).2.accounts = [{ accountID := 1, balance := 50, seqNum := 3 },
                             { accountID := 0, balance := 0, seqNum := 6 }] := by
  decide

/-- C2 (amended). When the source account exists with balance `b`, after
`processFeeSeqNum` the `feeCharged` field of the replayed result is
`min(b, R.feeCharged)` if `R.feeCharged > 0` and `R.feeCharged` otherwise; it
is identical to `R.feeCharged` whenever `R.feeCharged <= b` or
`R.feeCharged <= 0`. -/
theorem processFeeSeqNum_feeCharged (f : SimulationTransactionFrame) (ltx : LedgerTxn)
    (baseFee : Int) (acc : AccountEntry) (hacc : f.loadSourceAccount ltx = some acc) :
    (f.processFeeSeqNum ltx baseFee).1.mResult.feeCharged =
      (if f.mSimulationResult.feeCharged > 0
        then min acc.balance f.mSimulationResult.feeCharged
        else f.mSimulationResult.feeCharged) ∧
    (f.mSimulationResult.feeCharged ≤ acc.balance ∨ f.mSimulationResult.feeCharged ≤ 0 →
      (f.processFeeSeqNum ltx baseFee).1.mResult.feeCharged =
        f.mSimulationResult.feeCharged) := by
  obtain ⟨-, hfee, -, -, -⟩ := processFeeSeqNum_of_load f ltx baseFee acc hacc
  refine ⟨hfee, ?_⟩
  intro h
  rw [hfee]
  by_cases hf : f.mSimulationResult.feeCharged > 0
  · rw [if_pos hf]
    rcases h with h | h
    · exact min_eq_right h
    · omega
  · rw [if_neg hf]

/-- Witness for C2 (amended): balance 500 covers the archived fee 100. -/
theorem processFeeSeqNum_feeCharged_witness :
    ((Examples.frame [Examples.payment] (Examples.archived 100 .txSUCCESS
        [.opINNER .PAYMENT 0])).processFeeSeqNum (Examples.ledger 13 1000 500)
          100).1.mResult.feeCharged = 100 :=
  (processFeeSeqNum_feeCharged
    (Examples.frame [Examples.payment] (Examples.archived 100 .txSUCCESS [.opINNER .PAYMENT 0]))
    (Examples.ledger 13 1000 500) 100 { accountID := 0, balance := 500, seqNum := 6 }
    (by decide)).2 (Or.inl (by decide))

/-- C2, counterexample. With balance 30 and archived `feeCharged` 100 the
replayed result ends with `feeCharged` 30: the reference `fee` into the live
result is overwritten by `std::min(acc.balance, fee)`. -/
theorem processFeeSeqNum_feeCharged_capped :
    (Examples.frame [Examples.payment] (Examples.archived 100 .txSUCCESS
        [.opINNER .PAYMENT 0])).loadSourceAccount (Examples.ledger 13 1000 30) =
      some { accountID := 0, balance := 30, seqNum := 6 } ∧
    (Examples.frame [Examples.payment] (Examples.archived 100 .txSUCCESS
        [.opINNER .PAYMENT 0])).mSimulationResult.feeCharged = 100 ∧
    ((Examples.frame [Examples.payment] (Examples.archived 100 .txSUCCESS
        [.opINNER .PAYMENT 0])).processFeeSeqNum (Examples.ledger 13 1000 30)
          100).1.mResult.feeCharged = 30 := by
  decide

/-- What `processSeqNum` does from ledger version 10 on when the source account
exists. -/
theorem processSeqNum_of_load (f : SimulationTransactionFrame) (ltx : LedgerTxn)
    (acc : AccountEntry) (hacc : f.loadSourceAccount ltx = some acc)
    (hv : 10 ≤ ltx.header.ledgerVersion) :
    f.processSeqNum ltx =
      some { ltx with
        accounts :=
          storeAccount f.mEnvelope.tx.sourceAccount
            { acc with seqNum := f.mEnvelope.tx.seqNum } ltx.accounts } := by
  have hacc2 : loadAccount f.mEnvelope.tx.sourceAccount ltx.accounts = some acc := hacc
  simp only [processSeqNum, loadSourceAccount, hacc2, ge_iff_le, hv, if_true]

/-- Running `processSeqNum` a second time changes nothing, whatever the state. -/
theorem processSeqNum_twice (f : SimulationTransactionFrame) (ltx : LedgerTxn) :
    (f.processSeqNum ltx).bind f.processSeqNum = f.processSeqNum ltx := by
  by_cases hv : 10 ≤ ltx.header.ledgerVersion
  · cases hacc : f.loadSourceAccount ltx with
    | none =>
      have hacc2 : loadAccount f.mEnvelope.tx.sourceAccount ltx.accounts = none := hacc
      simp [processSeqNum, loadSourceAccount, hacc2, hv]
    | some acc =>
      have hacc2 : loadAccount f.mEnvelope.tx.sourceAccount ltx.accounts = some acc := hacc
      have hid : acc.accountID = f.mEnvelope.tx.sourceAccount := loadAccount_accountID hacc2
      rw [processSeqNum_of_load f ltx acc hacc hv, Option.some_bind]
      have hload2 : f.loadSourceAccount
          { ltx with
            accounts :=
              storeAccount f.mEnvelope.tx.sourceAccount
                { acc with seqNum := f.mEnvelope.tx.seqNum } ltx.accounts } =
          some { acc with seqNum := f.mEnvelope.tx.seqNum } :=
        loadAccount_storeAccount hacc2 hid
      rw [processSeqNum_of_load f _ _ hload2 hv]
      have hidem := storeAccount_storeAccount
        (show ({ acc with seqNum := f.mEnvelope.tx.seqNum } : AccountEntry).accountID =
          f.mEnvelope.tx.sourceAccount from hid) (l := ltx.accounts)
      simp only [hidem]
  · have h9 : ¬ ltx.header.ledgerVersion ≥ 10 := hv
    simp [processSeqNum, h9]

/-- C5. When the source account exists: at ledger version 9 or below
`processFeeSeqNum` sets its sequence number to the envelope's and
`processSeqNum` leaves the whole state as it is; from version 10 on
`processFeeSeqNum` leaves the sequence number as it is and `processSeqNum` sets
it to the envelope's (touching nothing but that account entry). After running
both the sequence number is the envelope's, and `processSeqNum` run twice gives
the state of running it once. -/
theorem seqNum_advanced_once (f : SimulationTransactionFrame) (ltx : LedgerTxn)
    (baseFee : Int) (acc : AccountEntry) (hacc : f.loadSourceAccount ltx = some acc) :
    (ltx.header.ledgerVersion ≤ 9 →
      ((f.processFeeSeqNum ltx baseFee).1.loadSourceAccount
          (f.processFeeSeqNum ltx baseFee).2).map AccountEntry.seqNum =
        some f.mEnvelope.tx.seqNum ∧
      f.processSeqNum ltx = some ltx) ∧
    (10 ≤ ltx.header.ledgerVersion →
      ((f.processFeeSeqNum ltx baseFee).1.loadSourceAccount
          (f.processFeeSeqNum ltx baseFee).2).map AccountEntry.seqNum = some acc.seqNum ∧
      f.processSeqNum ltx =
        some { ltx with
          accounts :=
            storeAccount f.mEnvelope.tx.sourceAccount
              { acc with seqNum := f.mEnvelope.tx.seqNum } ltx.accounts } ∧
      ((f.processSeqNum ltx).bind f.loadSourceAccount).map AccountEntry.seqNum =
        some f.mEnvelope.tx.seqNum) ∧
    (((f.processFeeSeqNum ltx baseFee).1.processSeqNum (f.processFeeSeqNum ltx baseFee).2).bind
        (f.processFeeSeqNum ltx baseFee).1.loadSourceAccount).map AccountEntry.seqNum =
      some f.mEnvelope.tx.seqNum ∧
    (f.processSeqNum ltx).bind f.processSeqNum = f.processSeqNum ltx := by
  obtain ⟨henv, -, hver, -, hload⟩ := processFeeSeqNum_of_load f ltx baseFee acc hacc
  have hacc2 : loadAccount f.mEnvelope.tx.sourceAccount ltx.accounts = some acc := hacc
  have hid : acc.accountID = f.mEnvelope.tx.sourceAccount := loadAccount_accountID hacc2
  have hset : ∀ (g : SimulationTransactionFrame) (l : LedgerTxn) (a : AccountEntry),
      g.loadSourceAccount l = some a → 10 ≤ l.header.ledgerVersion →
      ((g.processSeqNum l).bind g.loadSourceAccount).map AccountEntry.seqNum =
        some g.mEnvelope.tx.seqNum := by
    intro g l a ha hv
    have ha2 : loadAccount g.mEnvelope.tx.sourceAccount l.accounts = some a := ha
    have hida : a.accountID = g.mEnvelope.tx.sourceAccount := loadAccount_accountID ha2
    rw [processSeqNum_of_load g l a ha hv, Option.some_bind]
    have : g.loadSourceAccount
        { l with
          accounts :=
            storeAccount g.mEnvelope.tx.sourceAccount
              { a with seqNum := g.mEnvelope.tx.seqNum } l.accounts } =
        some { a with seqNum := g.mEnvelope.tx.seqNum } :=
      loadAccount_storeAccount ha2
        (show ({ a with seqNum := g.mEnvelope.tx.seqNum } : AccountEntry).accountID =
          g.mEnvelope.tx.sourceAccount from hida)
    rw [this]
    rfl
  refine ⟨?_, ?_, ?_, processSeqNum_twice f ltx⟩
  · intro hv
    have h10 : ¬ ltx.header.ledgerVersion ≥ 10 := by omega
    refine ⟨?_, ?_⟩
    · rw [hload, if_pos hv]
      rfl
    · simp [processSeqNum, h10]
  · intro hv
    have h9 : ¬ ltx.header.ledgerVersion ≤ 9 := by omega
    refine ⟨?_, processSeqNum_of_load f ltx acc hacc hv, hset f ltx acc hacc hv⟩
    rw [hload, if_neg h9]
    rfl
  · by_cases hv : 10 ≤ ltx.header.ledgerVersion
    · have := hset _ _ _ hload (by rw [hver]; exact hv)
      rw [henv] at this
      exact this
    · have h9 : ltx.header.ledgerVersion ≤ 9 := by omega
      have h10 : ¬ (f.processFeeSeqNum ltx baseFee).2.header.ledgerVersion ≥ 10 := by
        rw [hver]
        exact hv
      have hps : (f.processFeeSeqNum ltx baseFee).1.processSeqNum
          (f.processFeeSeqNum ltx baseFee).2 = some (f.processFeeSeqNum ltx baseFee).2 := by
        simp [processSeqNum, h10]
      rw [hps, Option.some_bind, hload, if_pos h9]
      rfl

/-- Witness for C5: at ledger version 13, after `processFeeSeqNum` and
`processSeqNum` the sequence number of account 0 has gone from 6 to the
envelope's 7. -/
theorem seqNum_advanced_once_witness :
    ((((Examples.frame [Examples.payment] (Examples.archived 100 .txSUCCESS
        [.opINNER .PAYMENT 0])).processFeeSeqNum (Examples.ledger 13 1000 500) 100).1.processSeqNum
      ((Examples.frame [Examples.payment] (Examples.archived 100 .txSUCCESS
        [.opINNER .PAYMENT 0])).processFeeSeqNum (Examples.ledger 13 1000 500) 100).2).bind
      ((Examples.frame [Examples.payment] (Examples.archived 100 .txSUCCESS
        [.opINNER .PAYMENT 0])).processFeeSeqNum (Examples.ledger 13 1000 500)
          100).1.loadSourceAccount).map AccountEntry.seqNum = some 7 :=
  (seqNum_advanced_once
    (Examples.frame [Examples.payment] (Examples.archived 100 .txSUCCESS [.opINNER .PAYMENT 0]))
    (Examples.ledger 13 1000 500) 100 { accountID := 0, balance := 500, seqNum := 6 }
    (by decide)).2.2.1

/-! ## The replay overlay: `makeOperation` -/

/-- The `switch` of `makeOperation` agrees with the dispatch rule of the spec. -/
theorem makeOperation_of_archive (f : SimulationTransactionFrame) (op envOp : Operation)
    (index : Nat) (r : OperationResult)
    (hop : f.mEnvelope.tx.operations[index]? = some envOp)
    (hr : f.resultFromArchive index = .ok r) :
    f.makeOperation op index = .ok (executorForKind envOp.body.type op r f.mCount) := by
  have hlt : index < f.mEnvelope.tx.operations.length := by
    by_contra hge
    rw [List.getElem?_eq_none (by omega)] at hop
    cases hop
  unfold makeOperation
  rw [if_pos hlt, hr]
  simp only [hop]
  cases envOp.body.type <;> simp [executorForKind]

/-- C6 (amended). `makeOperation` compares neither the number nor the kinds of
the archived per-operation results with the envelope. It fails on its `assert`
when the index is not below the envelope's operation count; when the index is
below it and the archived top-level code is neither `txSUCCESS` nor `txFAILED`,
or the archived list has an entry at that index, it returns an executor. -/
theorem makeOperation_no_shape_check (f : SimulationTransactionFrame) (op : Operation)
    (index : Nat) :
    (index < f.mEnvelope.tx.operations.length →
      (¬ (f.mSimulationResult.result.code = .txSUCCESS ∨
          f.mSimulationResult.result.code = .txFAILED) ∨
        index < f.mSimulationResult.result.results.length) →
      ∃ frame : OperationFrame, f.makeOperation op index = .ok frame) ∧
    (¬ index < f.mEnvelope.tx.operations.length →
      f.makeOperation op index = .error .assertionFailed) := by
  refine ⟨?_, ?_⟩
  · intro hlt hshape
    have hop : f.mEnvelope.tx.operations[index]? = some (f.mEnvelope.tx.operations[index]) :=
      List.getElem?_eq_getElem hlt
    have hr : ∃ r, f.resultFromArchive index = .ok r := by
      unfold resultFromArchive
      by_cases hc : f.mSimulationResult.result.code = .txSUCCESS ∨
          f.mSimulationResult.result.code = .txFAILED
      · rw [if_pos hc]
        rcases hshape with h | h
        · exact absurd hc h
        · rw [List.getElem?_eq_getElem h]
          exact ⟨_, rfl⟩
      · rw [if_neg hc]
        exact ⟨_, rfl⟩
    obtain ⟨r, hr⟩ := hr
    exact ⟨_, makeOperation_of_archive f op _ index r hop hr⟩
  · intro hge
    unfold makeOperation
    rw [if_neg hge]

/-- Witness for C6 (amended): an archived result with two entries, the first of
the payment kind, replayed against an envelope with one manage-buy-offer. -/
theorem makeOperation_no_shape_check_witness :
    ∃ frame : OperationFrame,
      (Examples.frame [Examples.manageBuyOffer] (Examples.archived 100 .txSUCCESS
        [.opINNER .PAYMENT 0, .opINNER .PAYMENT 0])).makeOperation Examples.manageBuyOffer 0 =
        .ok frame :=
  (makeOperation_no_shape_check
    (Examples.frame [Examples.manageBuyOffer] (Examples.archived 100 .txSUCCESS
      [.opINNER .PAYMENT 0, .opINNER .PAYMENT 0])) Examples.manageBuyOffer 0).1
    (by decide) (Or.inr (by decide))

/-- C6, counterexample. Against an envelope with the single operation
manage-buy-offer, an archived result with two per-operation results (a count
mismatch) and an archived result whose only entry is of the payment kind (a
kind mismatch) both make `makeOperation` return the manage-buy-offer replay
executor, built from the archived entry at index 0, instead of failing. -/
theorem makeOperation_accepts_mismatch :
    (Examples.frame [Examples.manageBuyOffer] (Examples.archived 100 .txSUCCESS
        [.opINNER .MANAGE_BUY_OFFER 0, .opINNER .PAYMENT 0])).makeOperation
        Examples.manageBuyOffer 0 =
      .ok (.SimulationManageBuyOfferOpFrame Examples.manageBuyOffer
        (.opINNER .MANAGE_BUY_OFFER 0) 5) ∧
    (Examples.frame [Examples.manageBuyOffer] (Examples.archived 100 .txSUCCESS
        [.opINNER .PAYMENT 0])).makeOperation Examples.manageBuyOffer 0 =
      .ok (.SimulationManageBuyOfferOpFrame Examples.manageBuyOffer (.opINNER .PAYMENT 0) 5) ∧
    (OperationResult.opINNER .PAYMENT 0).kind ≠ some Examples.manageBuyOffer.body.type :=
  ⟨rfl, rfl, by decide⟩

/-- C7 (amended). For an index below the envelope's operation count,
`makeOperation` picks the executor by the kind of the envelope's operation at
that index alone, as the dispatch rule says. When the archived top-level code is
`txSUCCESS` or `txFAILED` and the archived list has an entry at that index, the
executor carries that entry; for every other archived code it carries the
empty default result, and the archived per-operation list has no influence. -/
theorem makeOperation_dispatch (f : SimulationTransactionFrame) (op envOp : Operation)
    (index : Nat) (hop : f.mEnvelope.tx.operations[index]? = some envOp) :
    ((f.mSimulationResult.result.code = .txSUCCESS ∨
        f.mSimulationResult.result.code = .txFAILED) →
      ∀ r : OperationResult, f.mSimulationResult.result.results[index]? = some r →
        f.makeOperation op index = .ok (executorForKind envOp.body.type op r f.mCount)) ∧
    (¬ (f.mSimulationResult.result.code = .txSUCCESS ∨
        f.mSimulationResult.result.code = .txFAILED) →
      f.makeOperation op index =
        .ok (executorForKind envOp.body.type op OperationResult.default f.mCount) ∧
      ∀ rs : List OperationResult,
        makeOperation
          { f with
            mSimulationResult :=
              { f.mSimulationResult with
                result := { f.mSimulationResult.result with results := rs } } } op index =
        f.makeOperation op index) := by
  refine ⟨?_, ?_⟩
  · intro hc r hr
    apply makeOperation_of_archive f op envOp index r hop
    unfold resultFromArchive
    rw [if_pos hc, hr]
  · intro hc
    have h1 : f.resultFromArchive index = .ok OperationResult.default := by
      unfold resultFromArchive
      rw [if_neg hc]
    refine ⟨makeOperation_of_archive f op envOp index _ hop h1, ?_⟩
    intro rs
    rw [makeOperation_of_archive f op envOp index _ hop h1]
    have h2 : resultFromArchive
        { f with
          mSimulationResult :=
            { f.mSimulationResult with
              result := { f.mSimulationResult.result with results := rs } } } index =
        .ok OperationResult.default := by
      unfold resultFromArchive
      exact if_neg hc
    exact makeOperation_of_archive _ op envOp index _ hop h2

/-- Witness for C7 (amended): a merge replayed against an archived `txFAILED`
whose entry at index 0 is the merge result with code -1. -/
theorem makeOperation_dispatch_witness :
    (Examples.frame [Examples.accountMerge] (Examples.archived 100 .txFAILED
        [.opINNER .ACCOUNT_MERGE (-1)])).makeOperation Examples.payment 0 =
      .ok (.SimulationMergeOpFrame Examples.payment (.opINNER .ACCOUNT_MERGE (-1))) :=
  (makeOperation_dispatch
    (Examples.frame [Examples.accountMerge] (Examples.archived 100 .txFAILED
      [.opINNER .ACCOUNT_MERGE (-1)])) Examples.payment Examples.accountMerge 0
    (by decide)).1 (Or.inr (by decide)) (.opINNER .ACCOUNT_MERGE (-1)) (by decide)

/-- C7, counterexample. With an archived `txSUCCESS` that has no per-operation
results, index 0 is below the envelope's operation count but `makeOperation`
reads `results()[0]` past the end of the archived list: no executor carrying an
archived entry comes back. -/
theorem makeOperation_reads_past_end :
    (0 : Nat) < (Examples.frame [Examples.accountMerge]
      (Examples.archived 100 .txSUCCESS [])).mEnvelope.tx.operations.length ∧
    (Examples.frame [Examples.accountMerge]
      (Examples.archived 100 .txSUCCESS [])).makeOperation Examples.accountMerge 0 =
      .error .readPastEnd :=
  ⟨by decide, rfl⟩

/-- Witness for C3: an archived `txTOO_LATE`. -/
theorem archived_verdicts_witness :
    (Examples.frame [Examples.payment] (Examples.archived 100 .txTOO_LATE [])).isTooLate
      { ledgerVersion := 13, feePool := 0 } = true :=
  (archived_verdicts (Examples.frame [Examples.payment] (Examples.archived 100 .txTOO_LATE []))
    { ledgerVersion := 13, feePool := 0 } { ledgerVersion := 9, feePool := 5 } 1 2).2.1.mpr
    (by decide)

/-- Witness for C4: two frames with different envelopes and the same archived
result. -/
theorem getFee_archived_witness :
    (Examples.frame [Examples.payment, Examples.payment]
        (Examples.archived 100 .txSUCCESS [])).getFee { ledgerVersion := 9, feePool := 5 } 7 =
      (Examples.frame [Examples.payment] (Examples.archived 100 .txSUCCESS [])).getFee
        { ledgerVersion := 13, feePool := 0 } 100 :=
  (getFee_archived (Examples.frame [Examples.payment] (Examples.archived 100 .txSUCCESS []))
    (Examples.frame [Examples.payment, Examples.payment] (Examples.archived 100 .txSUCCESS []))
    { ledgerVersion := 13, feePool := 0 } { ledgerVersion := 9, feePool := 5 } 100 7).2 rfl

end SimulationTransactionFrame

/-! ## The model against the sections of the test -/

namespace SponsorFutureReservesTests

/-- SECTION "not supported": at version 13 `checkValid` is false and the
operation's code is `opNOT_SUPPORTED`. -/
theorem section_not_supported :
    TransactionFrame.checkValid 13 none
        (envelopeFromOps root 1 [opSponsorFutureReserves root a1]) =
      (false, { code := .txFAILED, results := [.opNOT_SUPPORTED] }) := by
  decide

/-- SECTION "malformed": from version 14 on `checkValid` is false and the
operation's code is `SPONSOR_FUTURE_RESERVES_MALFORMED`. -/
theorem section_malformed :
    TransactionFrame.checkValid 14 none
        (envelopeFromOps root 1 [opSponsorFutureReserves root root]) =
      (false, { code := .txFAILED, results := [SPONSOR_FUTURE_RESERVES_MALFORMED] }) := by
  decide

/-- SECTION "already sponsored". -/
theorem section_already_sponsored :
    (TransactionFrame.checkValid 14 none
        (envelopeFromOps root 1
          [opSponsorFutureReserves root a1, opSponsorFutureReserves root a1])).1 = true ∧
    (TransactionFrame.apply 14 noDefault
        (envelopeFromOps root 1
          [opSponsorFutureReserves root a1, opSponsorFutureReserves root a1]) emptyView).1 =
      false ∧
    (TransactionFrame.apply 14 noDefault
        (envelopeFromOps root 1
          [opSponsorFutureReserves root a1, opSponsorFutureReserves root a1]) emptyView).2.1 =
      { code := .txFAILED
        results := [SPONSOR_FUTURE_RESERVES_SUCCESS,
                    SPONSOR_FUTURE_RESERVES_ALREADY_SPONSORED] } := by
  decide

/-- SECTION "bad sponsorship". -/
theorem section_bad_sponsorship :
    (TransactionFrame.checkValid 14 none
        (envelopeFromOps root 1 [opSponsorFutureReserves root a1])).1 = true ∧
    (TransactionFrame.apply 14 noDefault
        (envelopeFromOps root 1 [opSponsorFutureReserves root a1]) emptyView).1 = false ∧
    (TransactionFrame.apply 14 noDefault
        (envelopeFromOps root 1 [opSponsorFutureReserves root a1]) emptyView).2.1.code =
      .txBAD_SPONSORSHIP := by
  decide

/-- SECTION "sponsoring account is sponsored". -/
theorem section_sponsoring_account_is_sponsored :
    (TransactionFrame.checkValid 14 none
        (envelopeFromOps root 1
          [opSponsorFutureReserves root a1, opSponsorFutureReserves a1 a2,
           opConfirmAndClearSponsor a2, opConfirmAndClearSponsor a1])).1 = true ∧
    (TransactionFrame.apply 14 noDefault
        (envelopeFromOps root 1
          [opSponsorFutureReserves root a1, opSponsorFutureReserves a1 a2,
           opConfirmAndClearSponsor a2, opConfirmAndClearSponsor a1]) emptyView).1 = false ∧
    (TransactionFrame.apply 14 noDefault
        (envelopeFromOps root 1
          [opSponsorFutureReserves root a1, opSponsorFutureReserves a1 a2,
           opConfirmAndClearSponsor a2, opConfirmAndClearSponsor a1]) emptyView).2.1 =
      { code := .txFAILED
        results := [SPONSOR_FUTURE_RESERVES_SUCCESS, SPONSOR_FUTURE_RESERVES_RECURSIVE] } := by
  decide

/-- SECTION "sponsored account is sponsoring". -/
theorem section_sponsored_account_is_sponsoring :
    (TransactionFrame.checkValid 14 none
        (envelopeFromOps root 1
          [opSponsorFutureReserves a1 a2, opSponsorFutureReserves root a1,
           opConfirmAndClearSponsor a2, opConfirmAndClearSponsor a1])).1 = true ∧
    (TransactionFrame.apply 14 noDefault
        (envelopeFromOps root 1
          [opSponsorFutureReserves a1 a2, opSponsorFutureReserves root a1,
           opConfirmAndClearSponsor a2, opConfirmAndClearSponsor a1]) emptyView).1 = false ∧
    (TransactionFrame.apply 14 noDefault
        (envelopeFromOps root 1
          [opSponsorFutureReserves a1 a2, opSponsorFutureReserves root a1,
           opConfirmAndClearSponsor a2, opConfirmAndClearSponsor a1]) emptyView).2.1 =
      { code := .txFAILED
        results := [SPONSOR_FUTURE_RESERVES_SUCCESS, SPONSOR_FUTURE_RESERVES_RECURSIVE] } := by
  decide

/-- SECTION "success". -/
theorem section_success :
    (TransactionFrame.checkValid 14 none
        (envelopeFromOps root 1
          [opSponsorFutureReserves root a1, opConfirmAndClearSponsor a1])).1 = true ∧
    (TransactionFrame.apply 14 noDefault
        (envelopeFromOps root 1
          [opSponsorFutureReserves root a1, opConfirmAndClearSponsor a1]) emptyView).1 = true ∧
    (TransactionFrame.apply 14 noDefault
        (envelopeFromOps root 1
          [opSponsorFutureReserves root a1, opConfirmAndClearSponsor a1]) emptyView).2.1 =
      { code := .txSUCCESS
        results := [SPONSOR_FUTURE_RESERVES_SUCCESS, CONFIRM_AND_CLEAR_SPONSOR_SUCCESS] } := by
  decide

end SponsorFutureReservesTests

/-! ## The sponsorship relation -/

theorem isSponsored_cons (P : Sponsorships) (t s a : AccountID) :
    isSponsored ((t, s) :: P) a = true ↔ t = a ∨ isSponsored P a = true := by
  simp [isSponsored]

theorem isSponsoring_cons (P : Sponsorships) (t s a : AccountID) :
    isSponsoring ((t, s) :: P) a = true ↔ s = a ∨ isSponsoring P a = true := by
  simp [isSponsoring]

theorem isSponsored_filter (P : Sponsorships) (b a : AccountID) :
    isSponsored (P.filter (fun e => decide (e.1 ≠ b))) a = true ↔
      a ≠ b ∧ isSponsored P a = true := by
  simp only [isSponsored, List.any_eq_true, List.mem_filter, decide_eq_true_eq]
  constructor
  · rintro ⟨e, ⟨he, hne⟩, hea⟩
    exact ⟨by rw [← hea]; exact hne, e, he, hea⟩
  · rintro ⟨hab, e, he, hea⟩
    exact ⟨e, ⟨he, by rw [hea]; exact hab⟩, hea⟩

theorem isSponsoring_of_filter (P : Sponsorships) (b a : AccountID)
    (h : isSponsoring (P.filter (fun e => decide (e.1 ≠ b))) a = true) :
    isSponsoring P a = true := by
  simp only [isSponsoring, List.any_eq_true, List.mem_filter, decide_eq_true_eq] at h ⊢
  obtain ⟨e, ⟨he, -⟩, hea⟩ := h
  exact ⟨e, he, hea⟩

theorem isSponsored_ne_nil {P : Sponsorships} {a : AccountID} (h : isSponsored P a = true) :
    P.isEmpty = false := by
  cases P with
  | nil => simp [isSponsored] at h
  | cons e rest => rfl

/-! ## One operation -/

namespace OperationExecutor

/-- A kind the ledger version does not know is rejected at validation. -/
theorem validate_not_supported (ledgerVersion : Nat) (txSource : AccountID) (op : Operation)
    (h : isVersionSupported ledgerVersion op.body.type = false) :
    validate ledgerVersion txSource op = some .opNOT_SUPPORTED := by
  unfold validate
  rw [h]
  rfl

/-- A rejection at validation is never a success code, and a valid
sponsor-future-reserves does not name its own source. -/
theorem validate_cases (ledgerVersion : Nat) (txSource : AccountID) (op : Operation) :
    (validate ledgerVersion txSource op = none ∧
      isVersionSupported ledgerVersion op.body.type = true ∧
      ∀ sponsored, op.body = .sponsorFutureReserves sponsored →
        sponsored ≠ op.getSourceID txSource) ∨
    (validate ledgerVersion txSource op = some .opNOT_SUPPORTED ∧
      isVersionSupported ledgerVersion op.body.type = false) ∨
    (validate ledgerVersion txSource op = some SPONSOR_FUTURE_RESERVES_MALFORMED ∧
      op.body = .sponsorFutureReserves (op.getSourceID txSource)) := by
  by_cases hs : isVersionSupported ledgerVersion op.body.type = true
  · unfold validate
    rw [if_pos hs]
    cases hb : op.body with
    | sponsorFutureReserves sponsored =>
      by_cases heq : sponsored = op.getSourceID txSource
      · refine Or.inr (Or.inr ⟨?_, ?_⟩)
        · simp only [heq, if_true]
        · rw [heq]
      · refine Or.inl ⟨?_, ?_, ?_⟩
        · simp only [heq, if_false]
        · rw [hb] at hs
          exact hs
        · intro t ht
          cases ht
          exact heq
    | _ =>
      refine Or.inl ⟨rfl, ?_, ?_⟩
      · rw [hb] at hs
        exact hs
      · intro t ht
        cases ht
  · have hs2 : isVersionSupported ledgerVersion op.body.type = false := by
      simpa using hs
    exact Or.inr (Or.inl ⟨validate_not_supported ledgerVersion txSource op hs2, hs2⟩)

theorem validateAndApply_of_invalid {σ : Type} (ledgerVersion : Nat)
    (dflt : Operation → AccountID → σ → OperationResult × σ) (txSource : AccountID)
    (op : Operation) (view : StateView σ) (r : OperationResult)
    (hval : validate ledgerVersion txSource op = some r) :
    validateAndApply ledgerVersion dflt txSource op view = (r, view) := by
  unfold validateAndApply
  rw [hval]

theorem validateAndApply_sponsorFutureReserves {σ : Type} (ledgerVersion : Nat)
    (dflt : Operation → AccountID → σ → OperationResult × σ) (txSource : AccountID)
    (op : Operation) (view : StateView σ) (sponsored : AccountID)
    (hval : validate ledgerVersion txSource op = none)
    (hbody : op.body = .sponsorFutureReserves sponsored) :
    validateAndApply ledgerVersion dflt txSource op view =
      ((sponsorFutureReserves (op.getSourceID txSource) sponsored view.sponsorships).1,
       { view with
         sponsorships :=
           (sponsorFutureReserves (op.getSourceID txSource) sponsored view.sponsorships).2 }) := by
  unfold validateAndApply
  rw [hval]
  simp only [hbody]

theorem validateAndApply_confirmAndClearSponsor {σ : Type} (ledgerVersion : Nat)
    (dflt : Operation → AccountID → σ → OperationResult × σ) (txSource : AccountID)
    (op : Operation) (view : StateView σ)
    (hval : validate ledgerVersion txSource op = none)
    (hbody : op.body = .confirmAndClearSponsor) :
    validateAndApply ledgerVersion dflt txSource op view =
      ((confirmAndClearSponsor (op.getSourceID txSource) view.sponsorships).1,
       { view with
         sponsorships :=
           (confirmAndClearSponsor (op.getSourceID txSource) view.sponsorships).2 }) := by
  unfold validateAndApply
  rw [hval]
  simp only [hbody]

/-- The four outcomes of the sponsor-future-reserves state machine. -/
theorem sponsorFutureReserves_cases (sponsor sponsored : AccountID) (P : Sponsorships) :
    (isSponsored P sponsored = true ∧
      sponsorFutureReserves sponsor sponsored P =
        (SPONSOR_FUTURE_RESERVES_ALREADY_SPONSORED, P)) ∨
    (isSponsored P sponsored = false ∧
      (isSponsored P sponsor = true ∨ isSponsoring P sponsored = true) ∧
      sponsorFutureReserves sponsor sponsored P = (SPONSOR_FUTURE_RESERVES_RECURSIVE, P)) ∨
    (isSponsored P sponsored = false ∧ isSponsored P sponsor = false ∧
      isSponsoring P sponsored = false ∧
      sponsorFutureReserves sponsor sponsored P =
        (SPONSOR_FUTURE_RESERVES_SUCCESS, (sponsored, sponsor) :: P)) := by
  unfold sponsorFutureReserves
  by_cases h1 : isSponsored P sponsored = true
  · rw [if_pos h1]
    exact Or.inl ⟨h1, rfl⟩
  · have h1f : isSponsored P sponsored = false := by simpa using h1
    rw [if_neg h1]
    by_cases h2 : isSponsored P sponsor = true
    · rw [if_pos h2]
      exact Or.inr (Or.inl ⟨h1f, Or.inl h2, rfl⟩)
    · have h2f : isSponsored P sponsor = false := by simpa using h2
      rw [if_neg h2]
      by_cases h3 : isSponsoring P sponsored = true
      · rw [if_pos h3]
        exact Or.inr (Or.inl ⟨h1f, Or.inr h3, rfl⟩)
      · have h3f : isSponsoring P sponsored = false := by simpa using h3
        rw [if_neg h3]
        exact Or.inr (Or.inr ⟨h1f, h2f, h3f, rfl⟩)

/-- What one executor run can do to the sponsorship relation: nothing, add the
edge of a successful sponsor-future-reserves, or clear the edges of the account
that confirms. -/
theorem validateAndApply_sponsorships {σ : Type} (ledgerVersion : Nat)
    (dflt : Operation → AccountID → σ → OperationResult × σ) (txSource : AccountID)
    (op : Operation) (view : StateView σ) :
    (validateAndApply ledgerVersion dflt txSource op view).2.sponsorships = view.sponsorships ∨
    (∃ sponsored : AccountID,
      op.body = .sponsorFutureReserves sponsored ∧
      sponsored ≠ op.getSourceID txSource ∧
      isSponsored view.sponsorships sponsored = false ∧
      isSponsored view.sponsorships (op.getSourceID txSource) = false ∧
      isSponsoring view.sponsorships sponsored = false ∧
      (validateAndApply ledgerVersion dflt txSource op view).2.sponsorships =
        (sponsored, op.getSourceID txSource) :: view.sponsorships) ∨
    (op.body = .confirmAndClearSponsor ∧
      (validateAndApply ledgerVersion dflt txSource op view).2.sponsorships =
        view.sponsorships.filter (fun e => decide (e.1 ≠ op.getSourceID txSource))) := by
  rcases validate_cases ledgerVersion txSource op with
    ⟨hval, -, hne⟩ | ⟨hval, -⟩ | ⟨hval, -⟩
  · cases hbody : op.body with
    | sponsorFutureReserves sponsored =>
      rw [validateAndApply_sponsorFutureReserves ledgerVersion dflt txSource op view sponsored
        hval hbody]
      rcases sponsorFutureReserves_cases (op.getSourceID txSource) sponsored view.sponsorships
        with ⟨-, h⟩ | ⟨-, -, h⟩ | ⟨h1, h2, h3, h⟩
      · rw [h]
        exact Or.inl rfl
      · rw [h]
        exact Or.inl rfl
      · rw [h]
        exact Or.inr (Or.inl ⟨sponsored, rfl, hne sponsored hbody, h1, h2, h3, rfl⟩)
    | confirmAndClearSponsor =>
      rw [validateAndApply_confirmAndClearSponsor ledgerVersion dflt txSource op view hval hbody]
      unfold confirmAndClearSponsor
      by_cases h1 : isSponsored view.sponsorships (op.getSourceID txSource) = true
      · rw [if_pos h1]
        exact Or.inr (Or.inr ⟨rfl, rfl⟩)
      · rw [if_neg h1]
        exact Or.inl rfl
    | _ =>
      left
      unfold validateAndApply
      rw [hval]
      simp only [hbody]
  · rw [validateAndApply_of_invalid ledgerVersion dflt txSource op view _ hval]
    exact Or.inl rfl
  · rw [validateAndApply_of_invalid ledgerVersion dflt txSource op view _ hval]
    exact Or.inl rfl

/-- A sponsor-future-reserves that succeeds leaves its edge in the relation. -/
theorem validateAndApply_sponsorFutureReserves_success {σ : Type} (ledgerVersion : Nat)
    (dflt : Operation → AccountID → σ → OperationResult × σ) (txSource : AccountID)
    (op : Operation) (view : StateView σ) (sponsored : AccountID)
    (hbody : op.body = .sponsorFutureReserves sponsored)
    (hok : (validateAndApply ledgerVersion dflt txSource op view).1.isSuccess = true) :
    isSponsored (validateAndApply ledgerVersion dflt txSource op view).2.sponsorships sponsored =
      true := by
  rcases validate_cases ledgerVersion txSource op with
    ⟨hval, -, -⟩ | ⟨hval, -⟩ | ⟨hval, -⟩
  · rw [validateAndApply_sponsorFutureReserves ledgerVersion dflt txSource op view sponsored
      hval hbody] at hok ⊢
    rcases sponsorFutureReserves_cases (op.getSourceID txSource) sponsored view.sponsorships
      with ⟨-, h⟩ | ⟨-, -, h⟩ | ⟨-, -, -, h⟩
    · rw [h] at hok
      cases hok
    · rw [h] at hok
      cases hok
    · rw [h]
      exact (isSponsored_cons _ _ _ _).mpr (Or.inl rfl)
  · rw [validateAndApply_of_invalid ledgerVersion dflt txSource op view _ hval] at hok
    cases hok
  · rw [validateAndApply_of_invalid ledgerVersion dflt txSource op view _ hval] at hok
    cases hok

/-- A pending sponsorship of an account stays pending through every operation
but a confirm-and-clear-sponsor issued by that account. -/
theorem validateAndApply_keeps_sponsored {σ : Type} (ledgerVersion : Nat)
    (dflt : Operation → AccountID → σ → OperationResult × σ) (txSource : AccountID)
    (op : Operation) (view : StateView σ) (b : AccountID)
    (hb : isSponsored view.sponsorships b = true)
    (hop : ¬ (op.body = .confirmAndClearSponsor ∧ op.getSourceID txSource = b)) :
    isSponsored (validateAndApply ledgerVersion dflt txSource op view).2.sponsorships b =
      true := by
  rcases validateAndApply_sponsorships ledgerVersion dflt txSource op view with
    h | ⟨t, -, -, -, -, -, h⟩ | ⟨hbody, h⟩
  · rw [h]
    exact hb
  · rw [h, isSponsored_cons]
    exact Or.inr hb
  · rw [h, isSponsored_filter]
    refine ⟨?_, hb⟩
    intro heq
    exact hop ⟨hbody, heq.symm⟩

/-- One executor run keeps the relation free of chains. -/
theorem validateAndApply_noChain {σ : Type} (ledgerVersion : Nat)
    (dflt : Operation → AccountID → σ → OperationResult × σ) (txSource : AccountID)
    (op : Operation) (view : StateView σ) (h : NoChain view.sponsorships) :
    NoChain (validateAndApply ledgerVersion dflt txSource op view).2.sponsorships := by
  rcases validateAndApply_sponsorships ledgerVersion dflt txSource op view with
    heq | ⟨t, -, hne, h1, h2, h3, heq⟩ | ⟨-, heq⟩
  · rw [heq]
    exact h
  · rw [heq]
    intro a ⟨ha1, ha2⟩
    rw [isSponsored_cons] at ha1
    rw [isSponsoring_cons] at ha2
    rcases ha1 with ha1 | ha1 <;> rcases ha2 with ha2 | ha2
    · exact hne (ha1.trans ha2.symm)
    · rw [← ha1, h3] at ha2
      cases ha2
    · rw [← ha2, h2] at ha1
      cases ha1
    · exact h a ⟨ha1, ha2⟩
  · rw [heq]
    intro a ⟨ha1, ha2⟩
    exact h a ⟨((isSponsored_filter _ _ _).mp ha1).2, isSponsoring_of_filter _ _ _ ha2⟩

end OperationExecutor

/-! ## The operation loop -/

namespace TransactionFrame

theorem applyOperations_nil {σ : Type} (ledgerVersion : Nat)
    (dflt : Operation → AccountID → σ → OperationResult × σ) (txSource : AccountID)
    (view : StateView σ) :
    applyOperations ledgerVersion dflt txSource [] view = (true, [], view) := rfl

theorem applyOperations_cons_success {σ : Type} (ledgerVersion : Nat)
    (dflt : Operation → AccountID → σ → OperationResult × σ) (txSource : AccountID)
    (op : Operation) (rest : List Operation) (view : StateView σ)
    (h : (OperationExecutor.validateAndApply ledgerVersion dflt txSource op view).1.isSuccess
      = true) :
    applyOperations ledgerVersion dflt txSource (op :: rest) view =
      ((applyOperations ledgerVersion dflt txSource rest
          (OperationExecutor.validateAndApply ledgerVersion dflt txSource op view).2).1,
       (OperationExecutor.validateAndApply ledgerVersion dflt txSource op view).1 ::
        (applyOperations ledgerVersion dflt txSource rest
          (OperationExecutor.validateAndApply ledgerVersion dflt txSource op view).2).2.1,
       (applyOperations ledgerVersion dflt txSource rest
          (OperationExecutor.validateAndApply ledgerVersion dflt txSource op view).2).2.2) := by
  simp only [applyOperations, h, if_true]

theorem applyOperations_cons_failure {σ : Type} (ledgerVersion : Nat)
    (dflt : Operation → AccountID → σ → OperationResult × σ) (txSource : AccountID)
    (op : Operation) (rest : List Operation) (view : StateView σ)
    (h : (OperationExecutor.validateAndApply ledgerVersion dflt txSource op view).1.isSuccess
      = false) :
    applyOperations ledgerVersion dflt txSource (op :: rest) view =
      (false, [(OperationExecutor.validateAndApply ledgerVersion dflt txSource op view).1],
       (OperationExecutor.validateAndApply ledgerVersion dflt txSource op view).2) := by
  simp [applyOperations, h]

/-- The loop over a concatenation: the second part runs only if the first went
through, on the state the first left. -/
theorem applyOperations_append {σ : Type} (ledgerVersion : Nat)
    (dflt : Operation → AccountID → σ → OperationResult × σ) (txSource : AccountID)
    (pre rest : List Operation) (view : StateView σ) :
    applyOperations ledgerVersion dflt txSource (pre ++ rest) view =
      if (applyOperations ledgerVersion dflt txSource pre view).1 = true then
        ((applyOperations ledgerVersion dflt txSource rest
            (applyOperations ledgerVersion dflt txSource pre view).2.2).1,
         (applyOperations ledgerVersion dflt txSource pre view).2.1 ++
          (applyOperations ledgerVersion dflt txSource rest
            (applyOperations ledgerVersion dflt txSource pre view).2.2).2.1,
         (applyOperations ledgerVersion dflt txSource rest
            (applyOperations ledgerVersion dflt txSource pre view).2.2).2.2)
      else applyOperations ledgerVersion dflt txSource pre view := by
  induction pre generalizing view with
  | nil => simp [applyOperations_nil]
  | cons op pre ih =>
    by_cases h : (OperationExecutor.validateAndApply ledgerVersion dflt txSource op
        view).1.isSuccess = true
    · rw [List.cons_append, applyOperations_cons_success _ _ _ _ _ _ h,
        applyOperations_cons_success _ _ _ _ _ _ h, ih]
      by_cases h2 : (applyOperations ledgerVersion dflt txSource pre
          (OperationExecutor.validateAndApply ledgerVersion dflt txSource op view).2).1 = true
      · simp only [h2, if_true, List.cons_append]
      · have h2f : (applyOperations ledgerVersion dflt txSource pre
            (OperationExecutor.validateAndApply ledgerVersion dflt txSource op view).2).1 =
            false := by simpa using h2
        simp [h2f]
    · have hf : (OperationExecutor.validateAndApply ledgerVersion dflt txSource op
          view).1.isSuccess = false := by simpa using h
      rw [List.cons_append, applyOperations_cons_failure _ _ _ _ _ _ hf,
        applyOperations_cons_failure _ _ _ _ _ _ hf]
      simp

/-- When the loop goes through, there is one result per operation and each is a
success. -/
theorem applyOperations_results {σ : Type} (ledgerVersion : Nat)
    (dflt : Operation → AccountID → σ → OperationResult × σ) (txSource : AccountID)
    (ops : List Operation) (view : StateView σ)
    (h : (applyOperations ledgerVersion dflt txSource ops view).1 = true) :
    (applyOperations ledgerVersion dflt txSource ops view).2.1.length = ops.length ∧
    ∀ r ∈ (applyOperations ledgerVersion dflt txSource ops view).2.1,
      r.isSuccess = true := by
  induction ops generalizing view with
  | nil => simp [applyOperations_nil]
  | cons op rest ih =>
    by_cases hs : (OperationExecutor.validateAndApply ledgerVersion dflt txSource op
        view).1.isSuccess = true
    · rw [applyOperations_cons_success _ _ _ _ _ _ hs] at h ⊢
      obtain ⟨h1, h2⟩ := ih _ h
      refine ⟨by simp [h1], ?_⟩
      intro r hr
      rcases List.mem_cons.mp hr with hr | hr
      · rw [hr]
        exact hs
      · exact h2 r hr
    · have hf : (OperationExecutor.validateAndApply ledgerVersion dflt txSource op
          view).1.isSuccess = false := by simpa using hs
      rw [applyOperations_cons_failure _ _ _ _ _ _ hf] at h
      cases h

/-- A pending sponsorship of an account survives the loop if no operation is a
confirm-and-clear-sponsor issued by that account. -/
theorem applyOperations_keeps_sponsored {σ : Type} (ledgerVersion : Nat)
    (dflt : Operation → AccountID → σ → OperationResult × σ) (txSource : AccountID)
    (ops : List Operation) (view : StateView σ) (b : AccountID)
    (hb : isSponsored view.sponsorships b = true)
    (hops : ∀ o ∈ ops, ¬ (o.body = .confirmAndClearSponsor ∧ o.getSourceID txSource = b)) :
    isSponsored (applyOperations ledgerVersion dflt txSource ops view).2.2.sponsorships b =
      true := by
  induction ops generalizing view with
  | nil => exact hb
  | cons op rest ih =>
    have hstep := OperationExecutor.validateAndApply_keeps_sponsored ledgerVersion dflt txSource
      op view b hb (hops op (List.mem_cons_self _ _))
    by_cases hs : (OperationExecutor.validateAndApply ledgerVersion dflt txSource op
        view).1.isSuccess = true
    · rw [applyOperations_cons_success _ _ _ _ _ _ hs]
      exact ih _ hstep (fun o ho => hops o (List.mem_cons_of_mem _ ho))
    · have hf : (OperationExecutor.validateAndApply ledgerVersion dflt txSource op
          view).1.isSuccess = false := by simpa using hs
      rw [applyOperations_cons_failure _ _ _ _ _ _ hf]
      exact hstep

/-- The loop keeps the relation free of chains. -/
theorem applyOperations_noChain {σ : Type} (ledgerVersion : Nat)
    (dflt : Operation → AccountID → σ → OperationResult × σ) (txSource : AccountID)
    (ops : List Operation) (view : StateView σ) (h : NoChain view.sponsorships) :
    NoChain (applyOperations ledgerVersion dflt txSource ops view).2.2.sponsorships := by
  induction ops generalizing view with
  | nil => exact h
  | cons op rest ih =>
    have hstep := OperationExecutor.validateAndApply_noChain ledgerVersion dflt txSource op view h
    by_cases hs : (OperationExecutor.validateAndApply ledgerVersion dflt txSource op
        view).1.isSuccess = true
    · rw [applyOperations_cons_success _ _ _ _ _ _ hs]
      exact ih _ hstep
    · have hf : (OperationExecutor.validateAndApply ledgerVersion dflt txSource op
          view).1.isSuccess = false := by simpa using hs
      rw [applyOperations_cons_failure _ _ _ _ _ _ hf]
      exact hstep

/-- The validation pass over operations that are all valid up to a rejected
one. -/
theorem validateOperations_append_invalid (ledgerVersion : Nat) (txSource : AccountID)
    (pre post : List Operation) (op : Operation) (r : OperationResult)
    (hpre : ∀ o ∈ pre, OperationExecutor.validate ledgerVersion txSource o = none)
    (hop : OperationExecutor.validate ledgerVersion txSource op = some r) :
    validateOperations ledgerVersion txSource (pre ++ op :: post) =
      (false, pre.map (fun o => OperationResult.opINNER o.body.type 0) ++ [r]) := by
  induction pre with
  | nil => simp [validateOperations, hop]
  | cons o pre ih =>
    have ho := hpre o (List.mem_cons_self _ _)
    have ih2 := ih (fun x hx => hpre x (List.mem_cons_of_mem _ hx))
    simp [validateOperations, ho, ih2]

/-- The validation pass fails as soon as one operation is rejected. -/
theorem validateOperations_of_invalid (ledgerVersion : Nat) (txSource : AccountID)
    (ops : List Operation) (op : Operation) (hmem : op ∈ ops)
    (hop : OperationExecutor.validate ledgerVersion txSource op ≠ none) :
    (validateOperations ledgerVersion txSource ops).1 = false := by
  induction ops with
  | nil => cases hmem
  | cons o rest ih =>
    cases hval : OperationExecutor.validate ledgerVersion txSource o with
    | some r => simp [validateOperations, hval]
    | none =>
      rcases List.mem_cons.mp hmem with h | h
      · rw [h] at hop
        exact absurd hval hop
      · simp [validateOperations, hval, ih h]

/-! ## The post-apply check -/

/-- A sponsor-future-reserves that succeeded and is not followed by a confirm of
the sponsored account is still pending when the loop ends. -/
theorem applyOperations_leaves_pending {σ : Type} (ledgerVersion : Nat)
    (dflt : Operation → AccountID → σ → OperationResult × σ) (txSource : AccountID)
    (pre post : List Operation) (op : Operation) (b : AccountID) (view : StateView σ)
    (hok : (applyOperations ledgerVersion dflt txSource (pre ++ op :: post) view).1 = true)
    (hbody : op.body = .sponsorFutureReserves b)
    (hpost : ∀ o ∈ post,
      ¬ (o.body = .confirmAndClearSponsor ∧ o.getSourceID txSource = b)) :
    isSponsored
      (applyOperations ledgerVersion dflt txSource (pre ++ op :: post) view).2.2.sponsorships b =
      true := by
  rw [applyOperations_append] at hok ⊢
  by_cases hpre : (applyOperations ledgerVersion dflt txSource pre view).1 = true
  · rw [if_pos hpre] at hok ⊢
    by_cases hs : (OperationExecutor.validateAndApply ledgerVersion dflt txSource op
        (applyOperations ledgerVersion dflt txSource pre view).2.2).1.isSuccess = true
    · rw [applyOperations_cons_success _ _ _ _ _ _ hs]
      exact applyOperations_keeps_sponsored ledgerVersion dflt txSource post _ b
        (OperationExecutor.validateAndApply_sponsorFutureReserves_success ledgerVersion dflt
          txSource op _ b hbody hs) hpost
    · have hf : (OperationExecutor.validateAndApply ledgerVersion dflt txSource op
          (applyOperations ledgerVersion dflt txSource pre view).2.2).1.isSuccess = false := by
        simpa using hs
      rw [applyOperations_cons_failure _ _ _ _ _ _ hf] at hok
      cases hok
  · rw [if_neg hpre] at hok
    exact absurd hok hpre

/-- C8. At ledger version 14 or later, for a transaction that passes
`checkValid` and in which every operation succeeds: if it contains a
sponsor-future-reserves for account B that no later operation of the
transaction confirms (a confirm-and-clear-sponsor issued by B), then `apply`
returns false and the top-level code is `txBAD_SPONSORSHIP`, which is neither
`txSUCCESS` nor `txFAILED`. -/
theorem apply_bad_sponsorship {σ : Type} (ledgerVersion : Nat) (_hv : 14 ≤ ledgerVersion)
    (precheck : Option TransactionResultCode)
    (dflt : Operation → AccountID → σ → OperationResult × σ)
    (envelope : TransactionEnvelope) (view : StateView σ)
    (pre post : List Operation) (op : Operation) (b : AccountID)
    (_hvalid : (checkValid ledgerVersion precheck envelope).1 = true)
    (hok : (applyOperations ledgerVersion dflt envelope.tx.sourceAccount
      envelope.tx.operations view).1 = true)
    (hops : envelope.tx.operations = pre ++ op :: post)
    (hbody : op.body = .sponsorFutureReserves b)
    (hpost : ∀ o ∈ post,
      ¬ (o.body = .confirmAndClearSponsor ∧ o.getSourceID envelope.tx.sourceAccount = b)) :
    (apply ledgerVersion dflt envelope view).1 = false ∧
    (apply ledgerVersion dflt envelope view).2.1.code = .txBAD_SPONSORSHIP ∧
    (apply ledgerVersion dflt envelope view).2.1.code ≠ .txSUCCESS ∧
    (apply ledgerVersion dflt envelope view).2.1.code ≠ .txFAILED := by
  have hpend : (applyOperations ledgerVersion dflt envelope.tx.sourceAccount
      envelope.tx.operations view).2.2.sponsorships.isEmpty = false := by
    rw [hops] at hok ⊢
    exact isSponsored_ne_nil
      (applyOperations_leaves_pending ledgerVersion dflt _ pre post op b view hok hbody hpost)
  have happly : apply ledgerVersion dflt envelope view =
      (false, { code := .txBAD_SPONSORSHIP, results := [] },
        (applyOperations ledgerVersion dflt envelope.tx.sourceAccount
          envelope.tx.operations view).2.2) := by
    unfold apply
    simp only [hok, hpend, if_true]
    rfl
  rw [happly]
  refine ⟨rfl, rfl, ?_, ?_⟩
  · show TransactionResultCode.txBAD_SPONSORSHIP ≠ .txSUCCESS
    decide
  · show TransactionResultCode.txBAD_SPONSORSHIP ≠ .txFAILED
    decide

/-- A property of the model that does not depend on the order of the two
rejection tests. When the operations before it all succeeded, a
sponsor-future-reserves issued by S for T, with S different from T and T
without a pending sponsor, fails with `SPONSOR_FUTURE_RESERVES_RECURSIVE` if S
is under a pending sponsorship or T is sponsoring: `apply` returns false with
`txFAILED`, the earlier results are successes and the RECURSIVE code sits at the
operation's index. Moreover the operation loop, started from a relation without
chains, never leaves a chain or cycle of pending sponsorships. -/
theorem apply_recursive_sponsorship {σ : Type} (ledgerVersion : Nat) (hv : 14 ≤ ledgerVersion)
    (dflt : Operation → AccountID → σ → OperationResult × σ)
    (envelope : TransactionEnvelope) (view : StateView σ)
    (pre post : List Operation) (op : Operation) (sponsor sponsored : AccountID)
    (hops : envelope.tx.operations = pre ++ op :: post)
    (hbody : op.body = .sponsorFutureReserves sponsored)
    (hsource : op.getSourceID envelope.tx.sourceAccount = sponsor)
    (hpre : (applyOperations ledgerVersion dflt envelope.tx.sourceAccount pre view).1 = true)
    (hne : sponsor ≠ sponsored)
    (hfree : isSponsored (applyOperations ledgerVersion dflt envelope.tx.sourceAccount pre
      view).2.2.sponsorships sponsored = false)
    (hrec : isSponsored (applyOperations ledgerVersion dflt envelope.tx.sourceAccount pre
        view).2.2.sponsorships sponsor = true ∨
      isSponsoring (applyOperations ledgerVersion dflt envelope.tx.sourceAccount pre
        view).2.2.sponsorships sponsored = true) :
    (apply ledgerVersion dflt envelope view).1 = false ∧
    (apply ledgerVersion dflt envelope view).2.1.code = .txFAILED ∧
    (apply ledgerVersion dflt envelope view).2.1.results =
      (applyOperations ledgerVersion dflt envelope.tx.sourceAccount pre view).2.1 ++
        [SPONSOR_FUTURE_RESERVES_RECURSIVE] ∧
    (apply ledgerVersion dflt envelope view).2.1.results[pre.length]? =
      some SPONSOR_FUTURE_RESERVES_RECURSIVE ∧
    (∀ r ∈ (applyOperations ledgerVersion dflt envelope.tx.sourceAccount pre view).2.1,
      r.isSuccess = true) ∧
    (NoChain view.sponsorships →
      ∀ ops : List Operation,
        NoChain (applyOperations ledgerVersion dflt envelope.tx.sourceAccount ops
          view).2.2.sponsorships) := by
  obtain ⟨hlen, hsucc⟩ := applyOperations_results ledgerVersion dflt _ pre view hpre
  have hval : OperationExecutor.validate ledgerVersion envelope.tx.sourceAccount op = none := by
    rcases OperationExecutor.validate_cases ledgerVersion envelope.tx.sourceAccount op with
      ⟨h, -, -⟩ | ⟨-, h⟩ | ⟨-, h⟩
    · exact h
    · rw [hbody] at h
      simp [isVersionSupported, OperationBody.type, hv] at h
    · rw [hbody, hsource] at h
      cases h
      exact absurd rfl hne
  have hstep : OperationExecutor.validateAndApply ledgerVersion dflt envelope.tx.sourceAccount op
      (applyOperations ledgerVersion dflt envelope.tx.sourceAccount pre view).2.2 =
      (SPONSOR_FUTURE_RESERVES_RECURSIVE,
        (applyOperations ledgerVersion dflt envelope.tx.sourceAccount pre view).2.2) := by
    rw [OperationExecutor.validateAndApply_sponsorFutureReserves ledgerVersion dflt _ op _
      sponsored hval hbody, hsource]
    rcases OperationExecutor.sponsorFutureReserves_cases sponsor sponsored
      (applyOperations ledgerVersion dflt envelope.tx.sourceAccount pre view).2.2.sponsorships
      with ⟨h1, -⟩ | ⟨-, -, h⟩ | ⟨-, h2, h3, -⟩
    · rw [hfree] at h1
      cases h1
    · rw [h]
    · rcases hrec with hr | hr
      · rw [h2] at hr
        cases hr
      · rw [h3] at hr
        cases hr
  have hloop : applyOperations ledgerVersion dflt envelope.tx.sourceAccount
      envelope.tx.operations view =
      (false,
        (applyOperations ledgerVersion dflt envelope.tx.sourceAccount pre view).2.1 ++
          [SPONSOR_FUTURE_RESERVES_RECURSIVE],
        (applyOperations ledgerVersion dflt envelope.tx.sourceAccount pre view).2.2) := by
    have hfail : (OperationExecutor.validateAndApply ledgerVersion dflt
        envelope.tx.sourceAccount op
        (applyOperations ledgerVersion dflt envelope.tx.sourceAccount pre
          view).2.2).1.isSuccess = false := by
      rw [hstep]
      rfl
    rw [hops, applyOperations_append, if_pos hpre,
      applyOperations_cons_failure _ _ _ _ _ _ hfail, hstep]
  have happly : apply ledgerVersion dflt envelope view =
      (false,
        { code := .txFAILED
          results := (applyOperations ledgerVersion dflt envelope.tx.sourceAccount pre
            view).2.1 ++ [SPONSOR_FUTURE_RESERVES_RECURSIVE] },
        (applyOperations ledgerVersion dflt envelope.tx.sourceAccount pre view).2.2) := by
    unfold apply
    rw [hloop]
    rfl
  rw [happly]
  refine ⟨rfl, rfl, rfl, ?_, hsucc, ?_⟩
  · show ((applyOperations ledgerVersion dflt envelope.tx.sourceAccount pre view).2.1 ++
        [SPONSOR_FUTURE_RESERVES_RECURSIVE])[pre.length]? = _
    rw [← hlen]
    simp
  · intro hno ops
    exact applyOperations_noChain ledgerVersion dflt _ ops view hno

/-- C10 (amended). For a transaction containing an operation whose kind the
active ledger version does not support, `checkValid` returns false; when the
precondition stage passes and the operations before that one are valid, the
operation's result code is `opNOT_SUPPORTED` and the transaction's top-level
code is `txFAILED`. -/
theorem checkValid_not_supported (ledgerVersion : Nat)
    (precheck : Option TransactionResultCode) (envelope : TransactionEnvelope)
    (pre post : List Operation) (op : Operation)
    (hops : envelope.tx.operations = pre ++ op :: post)
    (hkind : isVersionSupported ledgerVersion op.body.type = false) :
    (checkValid ledgerVersion precheck envelope).1 = false ∧
    (precheck = none →
      (∀ o ∈ pre,
        OperationExecutor.validate ledgerVersion envelope.tx.sourceAccount o = none) →
      (checkValid ledgerVersion precheck envelope).2.code = .txFAILED ∧
      (checkValid ledgerVersion precheck envelope).2.results[pre.length]? =
        some .opNOT_SUPPORTED) := by
  have hval := OperationExecutor.validate_not_supported ledgerVersion
    envelope.tx.sourceAccount op hkind
  have hfalse : (validateOperations ledgerVersion envelope.tx.sourceAccount
      envelope.tx.operations).1 = false := by
    apply validateOperations_of_invalid ledgerVersion _ _ op
    · rw [hops]
      simp
    · rw [hval]
      exact Option.some_ne_none _
  refine ⟨?_, ?_⟩
  · unfold checkValid
    cases precheck with
    | some c => rfl
    | none => simp only [hfalse, Bool.false_eq_true, if_false]
  · intro hnone hpre
    subst hnone
    unfold checkValid
    simp only [hfalse, Bool.false_eq_true, if_false]
    refine ⟨trivial, ?_⟩
    rw [hops, validateOperations_append_invalid ledgerVersion _ pre post op _ hpre hval]
    simp

end TransactionFrame

/-! ## The claims on concrete transactions -/

namespace SponsorFutureReservesTests

/-- Witness for C8: root sponsors a1 and a2 in one transaction and only a2
confirms. -/
theorem apply_bad_sponsorship_witness :
    (TransactionFrame.apply 14 noDefault
        (envelopeFromOps root 1
          [opSponsorFutureReserves root a1, opSponsorFutureReserves root a2,
           opConfirmAndClearSponsor a2]) emptyView).1 = false ∧
    (TransactionFrame.apply 14 noDefault
        (envelopeFromOps root 1
          [opSponsorFutureReserves root a1, opSponsorFutureReserves root a2,
           opConfirmAndClearSponsor a2]) emptyView).2.1.code = .txBAD_SPONSORSHIP :=
  have h := TransactionFrame.apply_bad_sponsorship 14 (by decide) none noDefault
    (envelopeFromOps root 1
      [opSponsorFutureReserves root a1, opSponsorFutureReserves root a2,
       opConfirmAndClearSponsor a2]) emptyView
    [] [opSponsorFutureReserves root a2, opConfirmAndClearSponsor a2]
    (opSponsorFutureReserves root a1) a1 (by decide) (by decide) rfl rfl (by decide)
  ⟨h.1, h.2.1⟩

/-- The transaction of the section "sponsoring account is sponsored", through
the general lemma: a1, sponsored by root, tries to sponsor a2. -/
theorem apply_recursive_sponsorship_example :
    (TransactionFrame.apply 14 noDefault
        (envelopeFromOps root 1
          [opSponsorFutureReserves root a1, opSponsorFutureReserves a1 a2,
           opConfirmAndClearSponsor a2, opConfirmAndClearSponsor a1]) emptyView).2.1.code =
      .txFAILED ∧
    (TransactionFrame.apply 14 noDefault
        (envelopeFromOps root 1
          [opSponsorFutureReserves root a1, opSponsorFutureReserves a1 a2,
           opConfirmAndClearSponsor a2, opConfirmAndClearSponsor a1]) emptyView).2.1.results[1]? =
      some SPONSOR_FUTURE_RESERVES_RECURSIVE :=
  have h := TransactionFrame.apply_recursive_sponsorship 14 (by decide) noDefault
    (envelopeFromOps root 1
      [opSponsorFutureReserves root a1, opSponsorFutureReserves a1 a2,
       opConfirmAndClearSponsor a2, opConfirmAndClearSponsor a1]) emptyView
    [opSponsorFutureReserves root a1] [opConfirmAndClearSponsor a2, opConfirmAndClearSponsor a1]
    (opSponsorFutureReserves a1 a2) a1 a2 rfl rfl rfl (by decide) (by decide) (by decide)
    (Or.inl (by decide))
  ⟨h.2.1, h.2.2.2.1⟩

/-- Witness for C10 (amended): at version 13 a payment followed by a
sponsor-future-reserves. -/
theorem checkValid_not_supported_witness :
    (TransactionFrame.checkValid 13 none
        (envelopeFromOps root 1
          [{ sourceAccount := some root, body := .payment },
           opSponsorFutureReserves root a1])).1 = false ∧
    (TransactionFrame.checkValid 13 none
        (envelopeFromOps root 1
          [{ sourceAccount := some root, body := .payment },
           opSponsorFutureReserves root a1])).2.results[1]? = some .opNOT_SUPPORTED :=
  have h := TransactionFrame.checkValid_not_supported 13 none
    (envelopeFromOps root 1
      [{ sourceAccount := some root, body := .payment }, opSponsorFutureReserves root a1])
    [{ sourceAccount := some root, body := .payment }] [] (opSponsorFutureReserves root a1)
    rfl (by decide)
  ⟨h.1, (h.2 rfl (by decide)).2⟩

/-- C10, counterexample. At ledger version 13 the transaction of the section
"not supported", whose only operation is a sponsor-future-reserves, does not
pass `checkValid`: it returns false, with `opNOT_SUPPORTED` as the operation's
code. -/
theorem checkValid_rejects_unsupported :
    isVersionSupported 13 (opSponsorFutureReserves root a1).body.type = false ∧
    (TransactionFrame.checkValid 13 none
        (envelopeFromOps root 1 [opSponsorFutureReserves root a1])).1 = false ∧
    (TransactionFrame.checkValid 13 none
        (envelopeFromOps root 1 [opSponsorFutureReserves root a1])).1 ≠ true ∧
    (TransactionFrame.checkValid 13 none
        (envelopeFromOps root 1 [opSponsorFutureReserves root a1])).2.results[0]? =
      some .opNOT_SUPPORTED := by
  decide

end SponsorFutureReservesTests

end stellar
